import Mathlib

/-!
# Verification of the elevenlabs-streaming buffered playback core

Shallow embedding of `packages/client/src/index.ts`: the streaming buffer
manager inside `playStreamingAudio`, the `generateAudio` orchestration, and
the buffer-then-play `playAudio` exit handling.

The session is modelled as an explicit state machine.  Every callback of the
source (`'data'`, `'end'`, `'error'`), of the subprocess (`'error'`,
`'close'`), of its stdin (`'error'`, `'drain'`) and the initial
`setTimeout` kick is one event; the single-threaded cooperative scheduler of
Node.js means each handler runs to completion before the next event, which is
exactly a step of the machine.  `ffplayProcess.stdin.write` returning
`false` (backpressure) is modelled by an oracle `List Bool` consumed one
entry per write, defaulting to `true` (sink accepts) when exhausted.
-/

set_option autoImplicit false

/-- One network-delivered audio chunk: an immutable byte sequence
(`chunk: Buffer`). Bytes are modelled as `Nat`. -/
abbrev AudioChunk : Type := List Nat

/-- Source constant `bufferSize = 1024 * 512` — the high watermark (512KB). -/
def bufferSize : Nat := 1024 * 512

/-- Source constant `minBufferSize = 1024 * 128` — the low watermark (128KB). -/
def minBufferSize : Nat := 1024 * 128

/-- The queued-chunk-count threshold in `buffer.length < 10` (the spec's
`minQueueSlack`). -/
def queueSlack : Nat := 10

/-- Errors surfaced by a session, tagged by originating phase:
the source stream error, the `spawn` failure, and
the playback-exit error (`ffplay exited with code ...`). -/
inductive SessionError where
  | sourceError (e : Nat)
  | spawnError (e : Nat)
  | playbackError (code : Option Int)
  deriving DecidableEq, Repr

/-- Error codes seen by `ffplayProcess.stdin.on('error')`:
`EPIPE` or anything else. -/
inductive StdinErrCode where
  | epipe
  | other (e : Nat)
  deriving DecidableEq, Repr

/-- The mutable state of one `playStreamingAudio` session.

Fields named as in the source: `buffer`, `totalBuffered`, `isPaused`,
`isStreamEnded`, `isWriting`.  `awaitingDrain` records that a `once('drain')`
callback is registered (the early return inside the write loop).  `sinkOk`
records that `spawn` produced a usable process/stdin; `stdinDestroyed`
mirrors `ffplayProcess.stdin.destroyed`.  `written` is the byte sequence
handed to `ffplayProcess.stdin.write`, in order; `stdinEnded`/`endCount`
record `ffplayProcess.stdin.end()` calls; `killCount`/`procKilled` record
`ffplayProcess.kill('SIGTERM')`; `resolved`/`outcome` mirror the promise.
`srcErrored`/`procClosed` are bookkeeping for which events may still fire.
`arrived` is a ghost field recording every chunk delivered by a `'data'`
event. -/
structure SessionState where
  buffer : List AudioChunk
  totalBuffered : Nat
  isPaused : Bool
  isStreamEnded : Bool
  isWriting : Bool
  awaitingDrain : Bool
  sinkOk : Bool
  stdinDestroyed : Bool
  written : List Nat
  stdinEnded : Bool
  endCount : Nat
  killCount : Nat
  procKilled : Bool
  resolved : Bool
  outcome : Option (Except SessionError Unit)
  srcErrored : Bool
  procClosed : Bool
  arrived : List AudioChunk

/-- Session state right after `spawn`: empty buffer, flowing, nothing
written, promise pending. -/
def initSession (sinkOk : Bool) : SessionState where
  buffer := []
  totalBuffered := 0
  isPaused := false
  isStreamEnded := false
  isWriting := false
  awaitingDrain := false
  sinkOk := sinkOk
  stdinDestroyed := false
  written := []
  stdinEnded := false
  endCount := 0
  killCount := 0
  procKilled := false
  resolved := false
  outcome := none
  srcErrored := false
  procClosed := false
  arrived := []

/-- Source: `buffer.push(chunk); totalBuffered += chunk.length` (start of the
`'data'` handler). -/
def enqueueChunk (c : AudioChunk) (s : SessionState) : SessionState :=
  { s with buffer := s.buffer ++ [c]
         , totalBuffered := s.totalBuffered + c.length
         , arrived := s.arrived ++ [c] }

/-- Source: `if (isPaused && totalBuffered >= bufferSize) isPaused = false` — the
resume branch of the `'data'` handler. -/
def resumeCheck (s : SessionState) : SessionState :=
  if s.isPaused = true ∧ bufferSize ≤ s.totalBuffered then
    { s with isPaused := false }
  else s

/-- Source: `if (totalBuffered < minBufferSize && !isStreamEnded && buffer.length < 10)
isPaused = true` — the low-watermark check after each successful write. -/
def pauseCheck (s : SessionState) : SessionState :=
  if s.totalBuffered < minBufferSize ∧ s.isStreamEnded = false ∧
      s.buffer.length < queueSlack then
    { s with isPaused := true }
  else s

/-- The tail of `writeToFfplay` after the while loop: `isWriting = false`,
then `if (isStreamEnded && buffer.length === 0 && ffplayProcess.stdin &&
!ffplayProcess.stdin.destroyed) ffplayProcess.stdin.end()`. -/
def finishWrite (s : SessionState) : SessionState :=
  if s.isStreamEnded = true ∧ s.buffer = [] ∧ s.sinkOk = true ∧
      s.stdinDestroyed = false then
    { s with isWriting := false, stdinEnded := true, endCount := s.endCount + 1 }
  else { s with isWriting := false }

/-- One iteration body of the write loop: `const chunk = buffer.shift();
const couldWrite = ffplayProcess.stdin.write(chunk);
totalBuffered -= chunk.length` — the chunk is handed to stdin (appended to
`written`) and the counter decremented. -/
def shiftWrite (c : AudioChunk) (rest : List AudioChunk) (s : SessionState) :
    SessionState :=
  { s with buffer := rest
         , totalBuffered := s.totalBuffered - c.length
         , written := s.written ++ c }

/-- The `while (buffer.length > 0 && !isPaused)` loop of `writeToFfplay`.
Each iteration shifts the head chunk, writes it to stdin, decrements
`totalBuffered`; a `false` write result registers the `once('drain')`
callback and returns with `isWriting` still `true`; otherwise the
low-watermark `pauseCheck` runs and the loop continues.  Fuel is the queue
length at entry (each iteration consumes one chunk). -/
def drainLoop : Nat → List Bool → SessionState → SessionState
  | 0, _, s => finishWrite s
  | fuel + 1, oracle, s =>
    match s.buffer with
    | [] => finishWrite s
    | c :: rest =>
      if s.isPaused = true then finishWrite s
      else if oracle.headD true = true then
        drainLoop fuel oracle.tail (pauseCheck (shiftWrite c rest s))
      else
        { shiftWrite c rest s with awaitingDrain := true }

/-- Source function `writeToFfplay()`: re-entrancy guard
(`isWriting || !ffplayProcess || !ffplayProcess.stdin ||
ffplayProcess.stdin.destroyed`), then the write loop with `isWriting = true`. -/
def writeToFfplay (oracle : List Bool) (s : SessionState) : SessionState :=
  if s.isWriting = true ∨ s.sinkOk = false ∨ s.stdinDestroyed = true then s
  else drainLoop s.buffer.length oracle { s with isWriting := true }

/-- The `audioStream.on('data')` handler: enqueue, resume check, and
`if (!isPaused) writeToFfplay()`. -/
def onData (c : AudioChunk) (oracle : List Bool) (s : SessionState) :
    SessionState :=
  let s1 := resumeCheck (enqueueChunk c s)
  if s1.isPaused = false then writeToFfplay oracle s1 else s1

/-- The `audioStream.on('end')` handler: `isStreamEnded = true;
isPaused = false; writeToFfplay()`. -/
def onEnd (oracle : List Bool) (s : SessionState) : SessionState :=
  writeToFfplay oracle { s with isStreamEnded := true, isPaused := false }

/-- Source function `cleanup()`: `if (ffplayProcess && !ffplayProcess.killed)
ffplayProcess.kill('SIGTERM')`. -/
def cleanup (s : SessionState) : SessionState :=
  if s.procKilled = false then
    { s with procKilled := true, killCount := s.killCount + 1 }
  else s

/-- Source: `if (!resolved) { resolved = true; reject(e) }`. -/
def rejectWith (e : SessionError) (s : SessionState) : SessionState :=
  if s.resolved = false then
    { s with resolved := true, outcome := some (Except.error e) }
  else s

/-- The `audioStream.on('error')` handler: `cleanup()` then reject with the
original stream error. -/
def onSrcError (e : Nat) (s : SessionState) : SessionState :=
  rejectWith (SessionError.sourceError e) (cleanup { s with srcErrored := true })

/-- The `ffplayProcess.on('error')` handler: reject with the spawn/process
error. -/
def onProcError (e : Nat) (s : SessionState) : SessionState :=
  rejectWith (SessionError.spawnError e) s

/-- The `ffplayProcess.on('close')` handler:
`if (code === 0 || code === null) resolve() else
reject(new Error(...))` with the playback-exit error, under the
`!resolved` guard. -/
def onProcClose (code : Option Int) (s : SessionState) : SessionState :=
  let s' := { s with procClosed := true }
  if s'.resolved = false then
    if code = some 0 ∨ code = none then
      { s' with resolved := true, outcome := some (Except.ok ()) }
    else
      { s' with resolved := true
              , outcome := some (Except.error (SessionError.playbackError code)) }
  else s'

/-- The `ffplayProcess.stdin.on('error')` handler: `EPIPE` is swallowed
silently, anything else is only logged — the session state is untouched in
both cases. -/
def onStdinError (c : StdinErrCode) (s : SessionState) : SessionState :=
  match c with
  | StdinErrCode.epipe => s
  | StdinErrCode.other _ => s

/-- The `once('drain')` callback: `isWriting = false; writeToFfplay()`
(the registered callback is consumed). -/
def onDrain (oracle : List Bool) (s : SessionState) : SessionState :=
  writeToFfplay oracle { s with isWriting := false, awaitingDrain := false }

/-- The initial `setTimeout(..., 100)` kick:
`if (totalBuffered > 0) writeToFfplay()`. -/
def onTimeout (oracle : List Bool) (s : SessionState) : SessionState :=
  if 0 < s.totalBuffered then writeToFfplay oracle s else s

/-- One scheduled callback of the session. -/
inductive AudioEvent where
  | data (c : AudioChunk) (oracle : List Bool)
  | srcEnd (oracle : List Bool)
  | srcError (e : Nat)
  | drain (oracle : List Bool)
  | procError (e : Nat)
  | procClose (code : Option Int)
  | stdinError (c : StdinErrCode)
  | timeout (oracle : List Bool)

/-- Dispatch one event to its handler. -/
def stepEvent (s : SessionState) : AudioEvent → SessionState
  | AudioEvent.data c oracle => onData c oracle s
  | AudioEvent.srcEnd oracle => onEnd oracle s
  | AudioEvent.srcError e => onSrcError e s
  | AudioEvent.drain oracle => onDrain oracle s
  | AudioEvent.procError e => onProcError e s
  | AudioEvent.procClose code => onProcClose code s
  | AudioEvent.stdinError c => onStdinError c s
  | AudioEvent.timeout oracle => onTimeout oracle s

/-- Which events Node.js can deliver in a given state: no `'data'`/`'end'`
after the stream ended or errored, `'drain'` only when a callback is
registered, the process `'close'`/`'error'` events only before `'close'`. -/
def validEvent (s : SessionState) : AudioEvent → Bool
  | AudioEvent.data _ _ => !s.isStreamEnded && !s.srcErrored
  | AudioEvent.srcEnd _ => !s.isStreamEnded && !s.srcErrored
  | AudioEvent.srcError _ => !s.isStreamEnded && !s.srcErrored
  | AudioEvent.drain _ => s.awaitingDrain
  | AudioEvent.procError _ => !s.procClosed
  | AudioEvent.procClose _ => !s.procClosed
  | AudioEvent.stdinError _ => true
  | AudioEvent.timeout _ => true

/-- Run a list of events in order. -/
def runTrace (s : SessionState) (t : List AudioEvent) : SessionState :=
  t.foldl stepEvent s

/-- States reachable from `start` through valid events. -/
inductive Reachable (start : SessionState) : SessionState → Prop
  | refl : Reachable start start
  | next {s : SessionState} {e : AudioEvent} :
      Reachable start s → validEvent s e = true → Reachable start (stepEvent s e)

/-- Options of `generateAudio` relevant to control flow: the optional
`playAudio` flag (`none` = omitted; `playAudio = true` is the destructuring
default).  `text`, `voiceId`, `modelId`, `outputFormat` only parameterize the
excluded synthesis request and are omitted. -/
structure GenerateAudioOptions where
  playAudio : Option Bool
  deriving DecidableEq, Repr

/-- Outcome of the synthesis byte stream: the chunks delivered in order,
then either a clean end (`error = none`) or a stream error. -/
structure SourceOutcome where
  chunks : List AudioChunk
  error : Option Nat

/-- Observable result of one `generateAudio` call: the resolved/rejected
value, the bytes written to the sink's stdin, how often the sink was
killed, and whether the sink subprocess was spawned at all. -/
structure GenerateResult where
  result : Except SessionError (List Nat)
  sinkWrites : List Nat
  killCount : Nat
  sinkSpawned : Bool

/-- The event schedule induced by a source outcome on the playback session:
each chunk as a `'data'` event, then either the stream `'error'` (after
which `cleanup()` kills the player, which later closes with the signal
sentinel `null`), or `'end'` followed by the process `'close'` with the
player's exit code.  Write oracles are empty (stdin accepts every write) —
backpressure scheduling is quantified separately via `Reachable`. -/
def dataEvents (cs : List AudioChunk) : List AudioEvent :=
  cs.map (fun c => AudioEvent.data c [])

/-- See `dataEvents`: the full schedule of one session. -/
def sessionTrace (src : SourceOutcome) (exitCode : Option Int) :
    List AudioEvent :=
  dataEvents src.chunks ++
    match src.error with
    | some e => [AudioEvent.srcError e, AudioEvent.procClose none]
    | none => [AudioEvent.srcEnd [], AudioEvent.procClose exitCode]

/-- Orchestrator `generateAudio(options)`:
`playAudio = true` by default; chunks are accumulated by the `passThrough`
`'data'` handler and concatenated by `Buffer.concat` (`chunks.flatten`).
If playback is requested, `playStreamingAudio(passThrough)` runs the session
(spawn failure delivers the process `'error'` event before any data).
A `pipeline` error is rethrown as-is before `playbackPromise` is awaited;
otherwise the call awaits the playback outcome and then returns the
accumulated buffer. -/
def generateAudio (opts : GenerateAudioOptions) (sinkAvailable : Bool)
    (src : SourceOutcome) (exitCode : Option Int) : GenerateResult :=
  let play := opts.playAudio.getD true
  if play = true then
    let tr := (if sinkAvailable = true then [] else [AudioEvent.procError 0]) ++
      sessionTrace src exitCode
    let sFinal := runTrace (initSession sinkAvailable) tr
    { result :=
        match src.error with
        | some e => Except.error (SessionError.sourceError e)
        | none =>
          match sFinal.outcome with
          | some (Except.error err) => Except.error err
          | _ => Except.ok src.chunks.flatten
    , sinkWrites := sFinal.written
    , killCount := sFinal.killCount
    , sinkSpawned := true }
  else
    { result :=
        match src.error with
        | some e => Except.error (SessionError.sourceError e)
        | none => Except.ok src.chunks.flatten
    , sinkWrites := []
    , killCount := 0
    , sinkSpawned := false }

/-- The `'close'` handler of the non-streaming `playAudio(audioBuffer)`:
`if (code === 0) resolve() else reject(new Error(...))` — note: no `null`
case, unlike the streaming path. -/
def playAudioClose (code : Option Int) : Except SessionError Unit :=
  if code = some 0 then Except.ok ()
  else Except.error (SessionError.playbackError code)

/-! ## Basic field lemmas -/

@[simp] lemma pauseCheck_buffer (s : SessionState) :
    (pauseCheck s).buffer = s.buffer := by
  unfold pauseCheck; split <;> rfl

@[simp] lemma pauseCheck_totalBuffered (s : SessionState) :
    (pauseCheck s).totalBuffered = s.totalBuffered := by
  unfold pauseCheck; split <;> rfl

@[simp] lemma pauseCheck_isStreamEnded (s : SessionState) :
    (pauseCheck s).isStreamEnded = s.isStreamEnded := by
  unfold pauseCheck; split <;> rfl

@[simp] lemma pauseCheck_isWriting (s : SessionState) :
    (pauseCheck s).isWriting = s.isWriting := by
  unfold pauseCheck; split <;> rfl

@[simp] lemma pauseCheck_awaitingDrain (s : SessionState) :
    (pauseCheck s).awaitingDrain = s.awaitingDrain := by
  unfold pauseCheck; split <;> rfl

@[simp] lemma pauseCheck_sinkOk (s : SessionState) :
    (pauseCheck s).sinkOk = s.sinkOk := by
  unfold pauseCheck; split <;> rfl

@[simp] lemma pauseCheck_stdinDestroyed (s : SessionState) :
    (pauseCheck s).stdinDestroyed = s.stdinDestroyed := by
  unfold pauseCheck; split <;> rfl

@[simp] lemma pauseCheck_written (s : SessionState) :
    (pauseCheck s).written = s.written := by
  unfold pauseCheck; split <;> rfl

@[simp] lemma pauseCheck_stdinEnded (s : SessionState) :
    (pauseCheck s).stdinEnded = s.stdinEnded := by
  unfold pauseCheck; split <;> rfl

@[simp] lemma pauseCheck_endCount (s : SessionState) :
    (pauseCheck s).endCount = s.endCount := by
  unfold pauseCheck; split <;> rfl

@[simp] lemma pauseCheck_killCount (s : SessionState) :
    (pauseCheck s).killCount = s.killCount := by
  unfold pauseCheck; split <;> rfl

@[simp] lemma pauseCheck_procKilled (s : SessionState) :
    (pauseCheck s).procKilled = s.procKilled := by
  unfold pauseCheck; split <;> rfl

@[simp] lemma pauseCheck_resolved (s : SessionState) :
    (pauseCheck s).resolved = s.resolved := by
  unfold pauseCheck; split <;> rfl

@[simp] lemma pauseCheck_outcome (s : SessionState) :
    (pauseCheck s).outcome = s.outcome := by
  unfold pauseCheck; split <;> rfl

@[simp] lemma pauseCheck_srcErrored (s : SessionState) :
    (pauseCheck s).srcErrored = s.srcErrored := by
  unfold pauseCheck; split <;> rfl

@[simp] lemma pauseCheck_procClosed (s : SessionState) :
    (pauseCheck s).procClosed = s.procClosed := by
  unfold pauseCheck; split <;> rfl

@[simp] lemma pauseCheck_arrived (s : SessionState) :
    (pauseCheck s).arrived = s.arrived := by
  unfold pauseCheck; split <;> rfl

@[simp] lemma shiftWrite_buffer (c : AudioChunk) (rest : List AudioChunk)
    (s : SessionState) : (shiftWrite c rest s).buffer = rest := rfl

@[simp] lemma shiftWrite_totalBuffered (c : AudioChunk)
    (rest : List AudioChunk) (s : SessionState) :
    (shiftWrite c rest s).totalBuffered = s.totalBuffered - c.length := rfl

@[simp] lemma shiftWrite_written (c : AudioChunk) (rest : List AudioChunk)
    (s : SessionState) : (shiftWrite c rest s).written = s.written ++ c := rfl

@[simp] lemma shiftWrite_isPaused (c : AudioChunk) (rest : List AudioChunk)
    (s : SessionState) : (shiftWrite c rest s).isPaused = s.isPaused := rfl

@[simp] lemma shiftWrite_isStreamEnded (c : AudioChunk)
    (rest : List AudioChunk) (s : SessionState) :
    (shiftWrite c rest s).isStreamEnded = s.isStreamEnded := rfl

@[simp] lemma shiftWrite_isWriting (c : AudioChunk) (rest : List AudioChunk)
    (s : SessionState) : (shiftWrite c rest s).isWriting = s.isWriting := rfl

@[simp] lemma shiftWrite_awaitingDrain (c : AudioChunk)
    (rest : List AudioChunk) (s : SessionState) :
    (shiftWrite c rest s).awaitingDrain = s.awaitingDrain := rfl

@[simp] lemma shiftWrite_sinkOk (c : AudioChunk) (rest : List AudioChunk)
    (s : SessionState) : (shiftWrite c rest s).sinkOk = s.sinkOk := rfl

@[simp] lemma shiftWrite_stdinDestroyed (c : AudioChunk)
    (rest : List AudioChunk) (s : SessionState) :
    (shiftWrite c rest s).stdinDestroyed = s.stdinDestroyed := rfl

@[simp] lemma shiftWrite_stdinEnded (c : AudioChunk) (rest : List AudioChunk)
    (s : SessionState) : (shiftWrite c rest s).stdinEnded = s.stdinEnded := rfl

@[simp] lemma shiftWrite_endCount (c : AudioChunk) (rest : List AudioChunk)
    (s : SessionState) : (shiftWrite c rest s).endCount = s.endCount := rfl

@[simp] lemma shiftWrite_killCount (c : AudioChunk) (rest : List AudioChunk)
    (s : SessionState) : (shiftWrite c rest s).killCount = s.killCount := rfl

@[simp] lemma shiftWrite_procKilled (c : AudioChunk) (rest : List AudioChunk)
    (s : SessionState) : (shiftWrite c rest s).procKilled = s.procKilled := rfl

@[simp] lemma shiftWrite_resolved (c : AudioChunk) (rest : List AudioChunk)
    (s : SessionState) : (shiftWrite c rest s).resolved = s.resolved := rfl

@[simp] lemma shiftWrite_outcome (c : AudioChunk) (rest : List AudioChunk)
    (s : SessionState) : (shiftWrite c rest s).outcome = s.outcome := rfl

@[simp] lemma shiftWrite_srcErrored (c : AudioChunk) (rest : List AudioChunk)
    (s : SessionState) : (shiftWrite c rest s).srcErrored = s.srcErrored := rfl

@[simp] lemma shiftWrite_procClosed (c : AudioChunk) (rest : List AudioChunk)
    (s : SessionState) : (shiftWrite c rest s).procClosed = s.procClosed := rfl

@[simp] lemma shiftWrite_arrived (c : AudioChunk) (rest : List AudioChunk)
    (s : SessionState) : (shiftWrite c rest s).arrived = s.arrived := rfl

@[simp] lemma finishWrite_buffer (s : SessionState) :
    (finishWrite s).buffer = s.buffer := by
  unfold finishWrite; split <;> rfl

@[simp] lemma finishWrite_totalBuffered (s : SessionState) :
    (finishWrite s).totalBuffered = s.totalBuffered := by
  unfold finishWrite; split <;> rfl

@[simp] lemma finishWrite_isPaused (s : SessionState) :
    (finishWrite s).isPaused = s.isPaused := by
  unfold finishWrite; split <;> rfl

@[simp] lemma finishWrite_isStreamEnded (s : SessionState) :
    (finishWrite s).isStreamEnded = s.isStreamEnded := by
  unfold finishWrite; split <;> rfl

@[simp] lemma finishWrite_isWriting (s : SessionState) :
    (finishWrite s).isWriting = false := by
  unfold finishWrite; split <;> rfl

@[simp] lemma finishWrite_awaitingDrain (s : SessionState) :
    (finishWrite s).awaitingDrain = s.awaitingDrain := by
  unfold finishWrite; split <;> rfl

@[simp] lemma finishWrite_sinkOk (s : SessionState) :
    (finishWrite s).sinkOk = s.sinkOk := by
  unfold finishWrite; split <;> rfl

@[simp] lemma finishWrite_stdinDestroyed (s : SessionState) :
    (finishWrite s).stdinDestroyed = s.stdinDestroyed := by
  unfold finishWrite; split <;> rfl

@[simp] lemma finishWrite_written (s : SessionState) :
    (finishWrite s).written = s.written := by
  unfold finishWrite; split <;> rfl

@[simp] lemma finishWrite_killCount (s : SessionState) :
    (finishWrite s).killCount = s.killCount := by
  unfold finishWrite; split <;> rfl

@[simp] lemma finishWrite_procKilled (s : SessionState) :
    (finishWrite s).procKilled = s.procKilled := by
  unfold finishWrite; split <;> rfl

@[simp] lemma finishWrite_resolved (s : SessionState) :
    (finishWrite s).resolved = s.resolved := by
  unfold finishWrite; split <;> rfl

@[simp] lemma finishWrite_outcome (s : SessionState) :
    (finishWrite s).outcome = s.outcome := by
  unfold finishWrite; split <;> rfl

@[simp] lemma finishWrite_srcErrored (s : SessionState) :
    (finishWrite s).srcErrored = s.srcErrored := by
  unfold finishWrite; split <;> rfl

@[simp] lemma finishWrite_procClosed (s : SessionState) :
    (finishWrite s).procClosed = s.procClosed := by
  unfold finishWrite; split <;> rfl

@[simp] lemma finishWrite_arrived (s : SessionState) :
    (finishWrite s).arrived = s.arrived := by
  unfold finishWrite; split <;> rfl

/-- Lemma: `finishWrite` closes stdin exactly when the flush condition holds. -/
lemma finishWrite_stdinEnded (s : SessionState) :
    (finishWrite s).stdinEnded =
      (if s.isStreamEnded = true ∧ s.buffer = [] ∧ s.sinkOk = true ∧
          s.stdinDestroyed = false then true else s.stdinEnded) := by
  unfold finishWrite; split <;> simp_all

/-- Lemma: `finishWrite` bumps the `end()` counter exactly when the flush condition
holds. -/
lemma finishWrite_endCount (s : SessionState) :
    (finishWrite s).endCount =
      (if s.isStreamEnded = true ∧ s.buffer = [] ∧ s.sinkOk = true ∧
          s.stdinDestroyed = false then s.endCount + 1 else s.endCount) := by
  unfold finishWrite; split <;> simp_all

/-! ## Drain-loop lemmas -/

/-- Fields the write loop never touches. -/
lemma drainLoop_fields (fuel : Nat) (oracle : List Bool) (s : SessionState) :
    (drainLoop fuel oracle s).isStreamEnded = s.isStreamEnded ∧
    (drainLoop fuel oracle s).arrived = s.arrived ∧
    (drainLoop fuel oracle s).sinkOk = s.sinkOk ∧
    (drainLoop fuel oracle s).stdinDestroyed = s.stdinDestroyed ∧
    (drainLoop fuel oracle s).killCount = s.killCount ∧
    (drainLoop fuel oracle s).procKilled = s.procKilled ∧
    (drainLoop fuel oracle s).resolved = s.resolved ∧
    (drainLoop fuel oracle s).outcome = s.outcome ∧
    (drainLoop fuel oracle s).srcErrored = s.srcErrored ∧
    (drainLoop fuel oracle s).procClosed = s.procClosed := by
  induction fuel generalizing oracle s with
  | zero => simp [drainLoop]
  | succ n ih =>
    rw [drainLoop]
    cases hb : s.buffer with
    | nil => simp
    | cons c rest =>
      dsimp only
      by_cases hp : s.isPaused = true
      · simp [hp]
      · rw [if_neg hp]
        by_cases hw : oracle.headD true = true
        · rw [if_pos hw]
          simpa using ih oracle.tail (pauseCheck (shiftWrite c rest s))
        · rw [if_neg hw]
          simp

/-- The write loop moves bytes from the queue to the sink without loss,
duplication or reordering: `written ++ queued` is unchanged. -/
lemma drainLoop_written (fuel : Nat) (oracle : List Bool) (s : SessionState) :
    (drainLoop fuel oracle s).written ++ (drainLoop fuel oracle s).buffer.flatten
      = s.written ++ s.buffer.flatten := by
  induction fuel generalizing oracle s with
  | zero => simp [drainLoop]
  | succ n ih =>
    rw [drainLoop]
    cases hb : s.buffer with
    | nil => simp [hb]
    | cons c rest =>
      dsimp only
      by_cases hp : s.isPaused = true
      · simp [hp, hb]
      · rw [if_neg hp]
        by_cases hw : oracle.headD true = true
        · rw [if_pos hw, ih oracle.tail (pauseCheck (shiftWrite c rest s))]
          simp
        · rw [if_neg hw]
          simp

/-- The write loop keeps `totalBuffered` equal to the number of queued
bytes. -/
lemma drainLoop_total (fuel : Nat) (oracle : List Bool) (s : SessionState)
    (h : s.totalBuffered = (s.buffer.map List.length).sum) :
    (drainLoop fuel oracle s).totalBuffered =
      ((drainLoop fuel oracle s).buffer.map List.length).sum := by
  induction fuel generalizing oracle s with
  | zero => simpa [drainLoop] using h
  | succ n ih =>
    rw [drainLoop]
    cases hb : s.buffer with
    | nil =>
      rw [hb] at h
      simpa [hb] using h
    | cons c rest =>
      rw [hb] at h
      dsimp only
      by_cases hp : s.isPaused = true
      · simpa [hp, hb] using h
      · rw [if_neg hp]
        by_cases hw : oracle.headD true = true
        · rw [if_pos hw]
          apply ih
          simp at h ⊢
          omega
        · rw [if_neg hw]
          simp at h ⊢
          omega

/-- The write loop preserves "paused implies the source has not ended":
the low-watermark pause never fires after end-of-source. -/
lemma drainLoop_pausedEnded (fuel : Nat) (oracle : List Bool)
    (s : SessionState) (h : s.isPaused = true → s.isStreamEnded = false) :
    (drainLoop fuel oracle s).isPaused = true →
      (drainLoop fuel oracle s).isStreamEnded = false := by
  induction fuel generalizing oracle s with
  | zero => simpa [drainLoop] using h
  | succ n ih =>
    rw [drainLoop]
    cases hb : s.buffer with
    | nil => simpa using h
    | cons c rest =>
      dsimp only
      by_cases hp : s.isPaused = true
      · simpa [hp] using h
      · rw [if_neg hp]
        by_cases hw : oracle.headD true = true
        · rw [if_pos hw]
          apply ih
          unfold pauseCheck
          split
          · intro _
            simp_all
          · intro hq
            simp at hq
            exact absurd hq hp
        · rw [if_neg hw]
          intro hq
          simp at hq
          exact absurd hq hp

/-- Write-loop bookkeeping for the re-entrancy flag and `stdin.end()`:
entered with `isWriting = true`, no drain callback pending, stdin not yet
ended, the loop leaves `isWriting` set exactly when a drain callback is
pending, calls `stdin.end()` at most once, and only with an empty queue
after end-of-source. -/
lemma drainLoop_guard (fuel : Nat) (oracle : List Bool) (s : SessionState)
    (h4 : s.awaitingDrain = false) (h5 : s.stdinEnded = false)
    (h6 : s.endCount = 0) (h7 : s.isWriting = true) :
    (drainLoop fuel oracle s).isWriting = (drainLoop fuel oracle s).awaitingDrain ∧
    (drainLoop fuel oracle s).endCount =
      (if (drainLoop fuel oracle s).stdinEnded = true then 1 else 0) ∧
    ((drainLoop fuel oracle s).stdinEnded = true →
      (drainLoop fuel oracle s).buffer = [] ∧
      (drainLoop fuel oracle s).isStreamEnded = true ∧
      (drainLoop fuel oracle s).awaitingDrain = false) := by
  induction fuel generalizing oracle s with
  | zero =>
    rw [drainLoop]
    unfold finishWrite
    split <;> simp_all
  | succ n ih =>
    rw [drainLoop]
    cases hb : s.buffer with
    | nil =>
      dsimp only
      unfold finishWrite
      by_cases hc : s.isStreamEnded = true ∧ s.buffer = [] ∧ s.sinkOk = true ∧
        s.stdinDestroyed = false
      · rw [if_pos hc]
        simp_all
      · rw [if_neg hc]
        simp_all
    | cons c rest =>
      dsimp only
      by_cases hp : s.isPaused = true
      · rw [if_pos hp]
        unfold finishWrite
        by_cases hc : s.isStreamEnded = true ∧ s.buffer = [] ∧ s.sinkOk = true ∧
          s.stdinDestroyed = false
        · rw [if_pos hc]
          simp_all
        · rw [if_neg hc]
          simp_all
      · rw [if_neg hp]
        by_cases hw : oracle.headD true = true
        · rw [if_pos hw]
          exact ih oracle.tail (pauseCheck (shiftWrite c rest s))
            (by simp [h4]) (by simp [h5]) (by simp [h6]) (by simp [h7])
        · rw [if_neg hw]
          simp [h5, h6, h7]

/-- After end-of-source, an unpaused write loop with an always-accepting
stdin (empty oracle) drains the whole queue, writes every queued byte in
order, and then calls `stdin.end()` once. -/
lemma drainLoop_flush (fuel : Nat) (s : SessionState)
    (hfuel : s.buffer.length ≤ fuel) (hp : s.isPaused = false)
    (he : s.isStreamEnded = true) (hs : s.sinkOk = true)
    (hd : s.stdinDestroyed = false) :
    (drainLoop fuel [] s).buffer = [] ∧
    (drainLoop fuel [] s).stdinEnded = true ∧
    (drainLoop fuel [] s).endCount = s.endCount + 1 ∧
    (drainLoop fuel [] s).written = s.written ++ s.buffer.flatten ∧
    (drainLoop fuel [] s).isWriting = false ∧
    (drainLoop fuel [] s).awaitingDrain = s.awaitingDrain ∧
    (drainLoop fuel [] s).isPaused = false := by
  induction fuel generalizing s with
  | zero =>
    have hb : s.buffer = [] := by
      cases h : s.buffer with
      | nil => rfl
      | cons c rest => rw [h] at hfuel; simp at hfuel
    rw [drainLoop]
    unfold finishWrite
    rw [if_pos ⟨he, hb, hs, hd⟩]
    simp [hb, hp]
  | succ n ih =>
    rw [drainLoop]
    cases hb : s.buffer with
    | nil =>
      dsimp only
      unfold finishWrite
      rw [if_pos ⟨he, hb, hs, hd⟩]
      simp [hb, hp]
    | cons c rest =>
      dsimp only
      rw [if_neg (by simp [hp]), if_pos (by rfl : List.headD [] true = true)]
      have hpc : pauseCheck (shiftWrite c rest s) = shiftWrite c rest s := by
        unfold pauseCheck
        rw [if_neg (by simp [he])]
      rw [show List.tail ([] : List Bool) = [] from rfl, hpc]
      have hlen : (shiftWrite c rest s).buffer.length ≤ n := by
        rw [hb] at hfuel
        simpa using Nat.lt_succ_iff.mp (Nat.lt_of_lt_of_le (by simp) hfuel)
      have := ih (shiftWrite c rest s) hlen (by simp [hp]) (by simp [he])
        (by simp [hs]) (by simp [hd])
      simpa [List.append_assoc] using this

@[simp] lemma enqueueChunk_buffer (c : AudioChunk) (s : SessionState) :
    (enqueueChunk c s).buffer = s.buffer ++ [c] := rfl

@[simp] lemma enqueueChunk_totalBuffered (c : AudioChunk) (s : SessionState) :
    (enqueueChunk c s).totalBuffered = s.totalBuffered + c.length := rfl

@[simp] lemma enqueueChunk_arrived (c : AudioChunk) (s : SessionState) :
    (enqueueChunk c s).arrived = s.arrived ++ [c] := rfl

@[simp] lemma enqueueChunk_isPaused (c : AudioChunk) (s : SessionState) :
    (enqueueChunk c s).isPaused = s.isPaused := rfl

@[simp] lemma enqueueChunk_isStreamEnded (c : AudioChunk) (s : SessionState) :
    (enqueueChunk c s).isStreamEnded = s.isStreamEnded := rfl

@[simp] lemma enqueueChunk_isWriting (c : AudioChunk) (s : SessionState) :
    (enqueueChunk c s).isWriting = s.isWriting := rfl

@[simp] lemma enqueueChunk_awaitingDrain (c : AudioChunk) (s : SessionState) :
    (enqueueChunk c s).awaitingDrain = s.awaitingDrain := rfl

@[simp] lemma enqueueChunk_sinkOk (c : AudioChunk) (s : SessionState) :
    (enqueueChunk c s).sinkOk = s.sinkOk := rfl

@[simp] lemma enqueueChunk_stdinDestroyed (c : AudioChunk) (s : SessionState) :
    (enqueueChunk c s).stdinDestroyed = s.stdinDestroyed := rfl

@[simp] lemma enqueueChunk_written (c : AudioChunk) (s : SessionState) :
    (enqueueChunk c s).written = s.written := rfl

@[simp] lemma enqueueChunk_stdinEnded (c : AudioChunk) (s : SessionState) :
    (enqueueChunk c s).stdinEnded = s.stdinEnded := rfl

@[simp] lemma enqueueChunk_endCount (c : AudioChunk) (s : SessionState) :
    (enqueueChunk c s).endCount = s.endCount := rfl

@[simp] lemma enqueueChunk_killCount (c : AudioChunk) (s : SessionState) :
    (enqueueChunk c s).killCount = s.killCount := rfl

@[simp] lemma enqueueChunk_procKilled (c : AudioChunk) (s : SessionState) :
    (enqueueChunk c s).procKilled = s.procKilled := rfl

@[simp] lemma enqueueChunk_resolved (c : AudioChunk) (s : SessionState) :
    (enqueueChunk c s).resolved = s.resolved := rfl

@[simp] lemma enqueueChunk_outcome (c : AudioChunk) (s : SessionState) :
    (enqueueChunk c s).outcome = s.outcome := rfl

@[simp] lemma enqueueChunk_srcErrored (c : AudioChunk) (s : SessionState) :
    (enqueueChunk c s).srcErrored = s.srcErrored := rfl

@[simp] lemma enqueueChunk_procClosed (c : AudioChunk) (s : SessionState) :
    (enqueueChunk c s).procClosed = s.procClosed := rfl

@[simp] lemma resumeCheck_buffer (s : SessionState) :
    (resumeCheck s).buffer = s.buffer := by
  unfold resumeCheck; split <;> rfl

@[simp] lemma resumeCheck_totalBuffered (s : SessionState) :
    (resumeCheck s).totalBuffered = s.totalBuffered := by
  unfold resumeCheck; split <;> rfl

@[simp] lemma resumeCheck_isStreamEnded (s : SessionState) :
    (resumeCheck s).isStreamEnded = s.isStreamEnded := by
  unfold resumeCheck; split <;> rfl

@[simp] lemma resumeCheck_isWriting (s : SessionState) :
    (resumeCheck s).isWriting = s.isWriting := by
  unfold resumeCheck; split <;> rfl

@[simp] lemma resumeCheck_awaitingDrain (s : SessionState) :
    (resumeCheck s).awaitingDrain = s.awaitingDrain := by
  unfold resumeCheck; split <;> rfl

@[simp] lemma resumeCheck_sinkOk (s : SessionState) :
    (resumeCheck s).sinkOk = s.sinkOk := by
  unfold resumeCheck; split <;> rfl

@[simp] lemma resumeCheck_stdinDestroyed (s : SessionState) :
    (resumeCheck s).stdinDestroyed = s.stdinDestroyed := by
  unfold resumeCheck; split <;> rfl

@[simp] lemma resumeCheck_written (s : SessionState) :
    (resumeCheck s).written = s.written := by
  unfold resumeCheck; split <;> rfl

@[simp] lemma resumeCheck_stdinEnded (s : SessionState) :
    (resumeCheck s).stdinEnded = s.stdinEnded := by
  unfold resumeCheck; split <;> rfl

@[simp] lemma resumeCheck_endCount (s : SessionState) :
    (resumeCheck s).endCount = s.endCount := by
  unfold resumeCheck; split <;> rfl

@[simp] lemma resumeCheck_killCount (s : SessionState) :
    (resumeCheck s).killCount = s.killCount := by
  unfold resumeCheck; split <;> rfl

@[simp] lemma resumeCheck_procKilled (s : SessionState) :
    (resumeCheck s).procKilled = s.procKilled := by
  unfold resumeCheck; split <;> rfl

@[simp] lemma resumeCheck_resolved (s : SessionState) :
    (resumeCheck s).resolved = s.resolved := by
  unfold resumeCheck; split <;> rfl

@[simp] lemma resumeCheck_outcome (s : SessionState) :
    (resumeCheck s).outcome = s.outcome := by
  unfold resumeCheck; split <;> rfl

@[simp] lemma resumeCheck_srcErrored (s : SessionState) :
    (resumeCheck s).srcErrored = s.srcErrored := by
  unfold resumeCheck; split <;> rfl

@[simp] lemma resumeCheck_procClosed (s : SessionState) :
    (resumeCheck s).procClosed = s.procClosed := by
  unfold resumeCheck; split <;> rfl

@[simp] lemma resumeCheck_arrived (s : SessionState) :
    (resumeCheck s).arrived = s.arrived := by
  unfold resumeCheck; split <;> rfl

/-- The resume branch: flow resumes exactly when paused and the buffered
bytes reached the high watermark. -/
lemma resumeCheck_isPaused (s : SessionState) :
    (resumeCheck s).isPaused =
      (if s.isPaused = true ∧ bufferSize ≤ s.totalBuffered then false
       else s.isPaused) := by
  unfold resumeCheck; split <;> rfl

@[simp] lemma cleanup_buffer (s : SessionState) :
    (cleanup s).buffer = s.buffer := by
  unfold cleanup; split <;> rfl

@[simp] lemma cleanup_totalBuffered (s : SessionState) :
    (cleanup s).totalBuffered = s.totalBuffered := by
  unfold cleanup; split <;> rfl

@[simp] lemma cleanup_isPaused (s : SessionState) :
    (cleanup s).isPaused = s.isPaused := by
  unfold cleanup; split <;> rfl

@[simp] lemma cleanup_isStreamEnded (s : SessionState) :
    (cleanup s).isStreamEnded = s.isStreamEnded := by
  unfold cleanup; split <;> rfl

@[simp] lemma cleanup_isWriting (s : SessionState) :
    (cleanup s).isWriting = s.isWriting := by
  unfold cleanup; split <;> rfl

@[simp] lemma cleanup_awaitingDrain (s : SessionState) :
    (cleanup s).awaitingDrain = s.awaitingDrain := by
  unfold cleanup; split <;> rfl

@[simp] lemma cleanup_sinkOk (s : SessionState) :
    (cleanup s).sinkOk = s.sinkOk := by
  unfold cleanup; split <;> rfl

@[simp] lemma cleanup_stdinDestroyed (s : SessionState) :
    (cleanup s).stdinDestroyed = s.stdinDestroyed := by
  unfold cleanup; split <;> rfl

@[simp] lemma cleanup_written (s : SessionState) :
    (cleanup s).written = s.written := by
  unfold cleanup; split <;> rfl

@[simp] lemma cleanup_stdinEnded (s : SessionState) :
    (cleanup s).stdinEnded = s.stdinEnded := by
  unfold cleanup; split <;> rfl

@[simp] lemma cleanup_endCount (s : SessionState) :
    (cleanup s).endCount = s.endCount := by
  unfold cleanup; split <;> rfl

@[simp] lemma cleanup_resolved (s : SessionState) :
    (cleanup s).resolved = s.resolved := by
  unfold cleanup; split <;> rfl

@[simp] lemma cleanup_outcome (s : SessionState) :
    (cleanup s).outcome = s.outcome := by
  unfold cleanup; split <;> rfl

@[simp] lemma cleanup_srcErrored (s : SessionState) :
    (cleanup s).srcErrored = s.srcErrored := by
  unfold cleanup; split <;> rfl

@[simp] lemma cleanup_procClosed (s : SessionState) :
    (cleanup s).procClosed = s.procClosed := by
  unfold cleanup; split <;> rfl

@[simp] lemma cleanup_arrived (s : SessionState) :
    (cleanup s).arrived = s.arrived := by
  unfold cleanup; split <;> rfl

/-- Idempotence of `kill()`: after `cleanup` the process is
always flagged killed. -/
@[simp] lemma cleanup_procKilled (s : SessionState) :
    (cleanup s).procKilled = true := by
  unfold cleanup; split <;> simp_all

/-- Function `cleanup` sends `SIGTERM` only if the process was not already killed. -/
lemma cleanup_killCount (s : SessionState) :
    (cleanup s).killCount =
      (if s.procKilled = false then s.killCount + 1 else s.killCount) := by
  unfold cleanup; split <;> rfl

@[simp] lemma rejectWith_buffer (e : SessionError) (s : SessionState) :
    (rejectWith e s).buffer = s.buffer := by
  unfold rejectWith; split <;> rfl

@[simp] lemma rejectWith_totalBuffered (e : SessionError) (s : SessionState) :
    (rejectWith e s).totalBuffered = s.totalBuffered := by
  unfold rejectWith; split <;> rfl

@[simp] lemma rejectWith_isPaused (e : SessionError) (s : SessionState) :
    (rejectWith e s).isPaused = s.isPaused := by
  unfold rejectWith; split <;> rfl

@[simp] lemma rejectWith_isStreamEnded (e : SessionError) (s : SessionState) :
    (rejectWith e s).isStreamEnded = s.isStreamEnded := by
  unfold rejectWith; split <;> rfl

@[simp] lemma rejectWith_isWriting (e : SessionError) (s : SessionState) :
    (rejectWith e s).isWriting = s.isWriting := by
  unfold rejectWith; split <;> rfl

@[simp] lemma rejectWith_awaitingDrain (e : SessionError) (s : SessionState) :
    (rejectWith e s).awaitingDrain = s.awaitingDrain := by
  unfold rejectWith; split <;> rfl

@[simp] lemma rejectWith_sinkOk (e : SessionError) (s : SessionState) :
    (rejectWith e s).sinkOk = s.sinkOk := by
  unfold rejectWith; split <;> rfl

@[simp] lemma rejectWith_stdinDestroyed (e : SessionError) (s : SessionState) :
    (rejectWith e s).stdinDestroyed = s.stdinDestroyed := by
  unfold rejectWith; split <;> rfl

@[simp] lemma rejectWith_written (e : SessionError) (s : SessionState) :
    (rejectWith e s).written = s.written := by
  unfold rejectWith; split <;> rfl

@[simp] lemma rejectWith_stdinEnded (e : SessionError) (s : SessionState) :
    (rejectWith e s).stdinEnded = s.stdinEnded := by
  unfold rejectWith; split <;> rfl

@[simp] lemma rejectWith_endCount (e : SessionError) (s : SessionState) :
    (rejectWith e s).endCount = s.endCount := by
  unfold rejectWith; split <;> rfl

@[simp] lemma rejectWith_killCount (e : SessionError) (s : SessionState) :
    (rejectWith e s).killCount = s.killCount := by
  unfold rejectWith; split <;> rfl

@[simp] lemma rejectWith_procKilled (e : SessionError) (s : SessionState) :
    (rejectWith e s).procKilled = s.procKilled := by
  unfold rejectWith; split <;> rfl

@[simp] lemma rejectWith_srcErrored (e : SessionError) (s : SessionState) :
    (rejectWith e s).srcErrored = s.srcErrored := by
  unfold rejectWith; split <;> rfl

@[simp] lemma rejectWith_procClosed (e : SessionError) (s : SessionState) :
    (rejectWith e s).procClosed = s.procClosed := by
  unfold rejectWith; split <;> rfl

@[simp] lemma rejectWith_arrived (e : SessionError) (s : SessionState) :
    (rejectWith e s).arrived = s.arrived := by
  unfold rejectWith; split <;> rfl

@[simp] lemma rejectWith_resolved (e : SessionError) (s : SessionState) :
    (rejectWith e s).resolved = true := by
  unfold rejectWith; split <;> simp_all

/-- Rejection only takes effect on a pending promise. -/
lemma rejectWith_outcome (e : SessionError) (s : SessionState) :
    (rejectWith e s).outcome =
      (if s.resolved = false then some (Except.error e) else s.outcome) := by
  unfold rejectWith; split <;> rfl

@[simp] lemma onProcClose_buffer (code : Option Int) (s : SessionState) :
    (onProcClose code s).buffer = s.buffer := by
  unfold onProcClose; dsimp only; split <;> (try split) <;> rfl

@[simp] lemma onProcClose_totalBuffered (code : Option Int)
    (s : SessionState) :
    (onProcClose code s).totalBuffered = s.totalBuffered := by
  unfold onProcClose; dsimp only; split <;> (try split) <;> rfl

@[simp] lemma onProcClose_isPaused (code : Option Int) (s : SessionState) :
    (onProcClose code s).isPaused = s.isPaused := by
  unfold onProcClose; dsimp only; split <;> (try split) <;> rfl

@[simp] lemma onProcClose_isStreamEnded (code : Option Int)
    (s : SessionState) :
    (onProcClose code s).isStreamEnded = s.isStreamEnded := by
  unfold onProcClose; dsimp only; split <;> (try split) <;> rfl

@[simp] lemma onProcClose_isWriting (code : Option Int) (s : SessionState) :
    (onProcClose code s).isWriting = s.isWriting := by
  unfold onProcClose; dsimp only; split <;> (try split) <;> rfl

@[simp] lemma onProcClose_awaitingDrain (code : Option Int)
    (s : SessionState) :
    (onProcClose code s).awaitingDrain = s.awaitingDrain := by
  unfold onProcClose; dsimp only; split <;> (try split) <;> rfl

@[simp] lemma onProcClose_sinkOk (code : Option Int) (s : SessionState) :
    (onProcClose code s).sinkOk = s.sinkOk := by
  unfold onProcClose; dsimp only; split <;> (try split) <;> rfl

@[simp] lemma onProcClose_stdinDestroyed (code : Option Int)
    (s : SessionState) :
    (onProcClose code s).stdinDestroyed = s.stdinDestroyed := by
  unfold onProcClose; dsimp only; split <;> (try split) <;> rfl

@[simp] lemma onProcClose_written (code : Option Int) (s : SessionState) :
    (onProcClose code s).written = s.written := by
  unfold onProcClose; dsimp only; split <;> (try split) <;> rfl

@[simp] lemma onProcClose_stdinEnded (code : Option Int) (s : SessionState) :
    (onProcClose code s).stdinEnded = s.stdinEnded := by
  unfold onProcClose; dsimp only; split <;> (try split) <;> rfl

@[simp] lemma onProcClose_endCount (code : Option Int) (s : SessionState) :
    (onProcClose code s).endCount = s.endCount := by
  unfold onProcClose; dsimp only; split <;> (try split) <;> rfl

@[simp] lemma onProcClose_killCount (code : Option Int) (s : SessionState) :
    (onProcClose code s).killCount = s.killCount := by
  unfold onProcClose; dsimp only; split <;> (try split) <;> rfl

@[simp] lemma onProcClose_procKilled (code : Option Int) (s : SessionState) :
    (onProcClose code s).procKilled = s.procKilled := by
  unfold onProcClose; dsimp only; split <;> (try split) <;> rfl

@[simp] lemma onProcClose_srcErrored (code : Option Int) (s : SessionState) :
    (onProcClose code s).srcErrored = s.srcErrored := by
  unfold onProcClose; dsimp only; split <;> (try split) <;> rfl

@[simp] lemma onProcClose_arrived (code : Option Int) (s : SessionState) :
    (onProcClose code s).arrived = s.arrived := by
  unfold onProcClose; dsimp only; split <;> (try split) <;> rfl

@[simp] lemma onProcClose_procClosed (code : Option Int) (s : SessionState) :
    (onProcClose code s).procClosed = true := by
  unfold onProcClose; dsimp only; split <;> (try split) <;> rfl

/-- Handler `onStdinError` never changes the session state: an input-pipe error by
itself never fails (or resolves) the session. -/
lemma onStdinError_eq (c : StdinErrCode) (s : SessionState) :
    onStdinError c s = s := by
  cases c <;> rfl

/-- Fields `writeToFfplay` never touches. -/
lemma writeToFfplay_const (oracle : List Bool) (s : SessionState) :
    (writeToFfplay oracle s).isStreamEnded = s.isStreamEnded ∧
    (writeToFfplay oracle s).arrived = s.arrived ∧
    (writeToFfplay oracle s).sinkOk = s.sinkOk ∧
    (writeToFfplay oracle s).stdinDestroyed = s.stdinDestroyed ∧
    (writeToFfplay oracle s).killCount = s.killCount ∧
    (writeToFfplay oracle s).procKilled = s.procKilled ∧
    (writeToFfplay oracle s).resolved = s.resolved ∧
    (writeToFfplay oracle s).outcome = s.outcome ∧
    (writeToFfplay oracle s).srcErrored = s.srcErrored ∧
    (writeToFfplay oracle s).procClosed = s.procClosed := by
  unfold writeToFfplay
  split
  · exact ⟨rfl, rfl, rfl, rfl, rfl, rfl, rfl, rfl, rfl, rfl⟩
  · simpa using drainLoop_fields s.buffer.length oracle { s with isWriting := true }

/-! ## The session invariant -/

/-- Invariant holding at every event boundary of a playback session:
the byte counter matches the queue, `written ++ queued` is exactly the
arrived bytes, a pause implies the source has not ended, the re-entrancy
flag matches the pending-drain flag, and `stdin.end()` has been called at
most once — only with an empty queue after end-of-source. -/
def SessionInv (s : SessionState) : Prop :=
  s.totalBuffered = (s.buffer.map List.length).sum ∧
  s.written ++ s.buffer.flatten = s.arrived.flatten ∧
  (s.isPaused = true → s.isStreamEnded = false) ∧
  s.isWriting = s.awaitingDrain ∧
  s.endCount = (if s.stdinEnded = true then 1 else 0) ∧
  (s.stdinEnded = true →
    s.buffer = [] ∧ s.isStreamEnded = true ∧ s.awaitingDrain = false)

lemma inv_init (b : Bool) : SessionInv (initSession b) := by
  unfold SessionInv initSession
  simp

/-- A state that has not yet called `stdin.end()` keeps the invariant
through `writeToFfplay`. -/
lemma writeToFfplay_inv (oracle : List Bool) (s : SessionState)
    (h : SessionInv s) (h7 : s.stdinEnded = false) : SessionInv (writeToFfplay oracle s) := by
  obtain ⟨h1, h2, h3, h4, h5, h6⟩ := h
  unfold writeToFfplay
  split
  · exact ⟨h1, h2, h3, h4, h5, h6⟩
  · rename_i hg
    simp only [not_or, Bool.not_eq_true, Bool.not_eq_false] at hg
    obtain ⟨hw, _, _⟩ := hg
    have had : s.awaitingDrain = false := by rw [← h4, hw]
    have hguard := drainLoop_guard s.buffer.length oracle
      { s with isWriting := true } (by simpa using had) (by simpa using h7)
      (by simpa [h7] using h5) (by simp)
    have hfields := drainLoop_fields s.buffer.length oracle
      { s with isWriting := true }
    have hwritten := drainLoop_written s.buffer.length oracle
      { s with isWriting := true }
    have htotal := drainLoop_total s.buffer.length oracle
      { s with isWriting := true } (by simpa using h1)
    have hpe := drainLoop_pausedEnded s.buffer.length oracle
      { s with isWriting := true } (by simpa using h3)
    refine ⟨htotal, ?_, hpe, hguard.1, hguard.2.1, hguard.2.2⟩
    rw [hwritten, hfields.2.1]
    simpa using h2

/-- A session state whose source has not ended has not called
`stdin.end()`. -/
lemma stdinEnded_false_of_notEnded (s : SessionState)
    (h6 : s.stdinEnded = true →
      s.buffer = [] ∧ s.isStreamEnded = true ∧ s.awaitingDrain = false)
    (hve : s.isStreamEnded = false) : s.stdinEnded = false := by
  cases hq : s.stdinEnded with
  | false => rfl
  | true => rw [(h6 hq).2.1] at hve; cases hve

/-- Enqueueing a chunk and running the resume check keeps the invariant
(as long as the source has not ended). -/
lemma inv_enqueue (c : AudioChunk) (s : SessionState) (h : SessionInv s)
    (hve : s.isStreamEnded = false) : SessionInv (resumeCheck (enqueueChunk c s)) := by
  obtain ⟨h1, h2, h3, h4, h5, h6⟩ := h
  have hse : s.stdinEnded = false := stdinEnded_false_of_notEnded s h6 hve
  refine ⟨?_, ?_, ?_, ?_, ?_, ?_⟩
  · simp [h1]
  · simp only [resumeCheck_written, resumeCheck_buffer, resumeCheck_arrived,
      enqueueChunk_written, enqueueChunk_buffer, enqueueChunk_arrived,
      List.flatten_append, List.flatten_cons, List.flatten_nil,
      List.append_nil, ← List.append_assoc, h2]
  · simp [hve]
  · simp [h4]
  · simp [h5]
  · simp [hse]

/-- One valid event preserves the session invariant. -/
lemma inv_step (s : SessionState) (e : AudioEvent)
    (hv : validEvent s e = true) (h : SessionInv s) : SessionInv (stepEvent s e) := by
  cases e with
  | data c oracle =>
    have hve : s.isStreamEnded = false := by
      simp [validEvent] at hv
      exact hv.1
    have hinv1 := inv_enqueue c s h hve
    simp only [stepEvent, onData]
    split
    · exact writeToFfplay_inv oracle _ hinv1 (by
        simpa using stdinEnded_false_of_notEnded s h.2.2.2.2.2 hve)
    · exact hinv1
  | srcEnd oracle =>
    have hve : s.isStreamEnded = false := by
      simp [validEvent] at hv
      exact hv.1
    obtain ⟨h1, h2, h3, h4, h5, h6⟩ := h
    have hse : s.stdinEnded = false := stdinEnded_false_of_notEnded s h6 hve
    simp only [stepEvent, onEnd]
    refine writeToFfplay_inv oracle _ ⟨?_, ?_, ?_, ?_, ?_, ?_⟩ (by simpa using hse)
    · simpa using h1
    · simpa using h2
    · simp
    · simpa using h4
    · simpa using h5
    · simp [hse]
  | srcError e =>
    obtain ⟨h1, h2, h3, h4, h5, h6⟩ := h
    simp only [stepEvent, onSrcError]
    exact ⟨by simpa using h1, by simpa using h2, by simpa using h3,
      by simpa using h4, by simpa using h5, by simpa using h6⟩
  | drain oracle =>
    have hva : s.awaitingDrain = true := by simpa [validEvent] using hv
    obtain ⟨h1, h2, h3, h4, h5, h6⟩ := h
    have hse : s.stdinEnded = false := by
      cases hq : s.stdinEnded with
      | false => rfl
      | true => rw [(h6 hq).2.2] at hva; cases hva
    simp only [stepEvent, onDrain]
    refine writeToFfplay_inv oracle _ ⟨?_, ?_, ?_, ?_, ?_, ?_⟩ (by simpa using hse)
    · simpa using h1
    · simpa using h2
    · simpa using h3
    · simp
    · simpa using h5
    · simp [hse]
  | procError e =>
    obtain ⟨h1, h2, h3, h4, h5, h6⟩ := h
    simp only [stepEvent, onProcError]
    exact ⟨by simpa using h1, by simpa using h2, by simpa using h3,
      by simpa using h4, by simpa using h5, by simpa using h6⟩
  | procClose code =>
    obtain ⟨h1, h2, h3, h4, h5, h6⟩ := h
    exact ⟨by simpa [stepEvent] using h1, by simpa [stepEvent] using h2,
      by simpa [stepEvent] using h3, by simpa [stepEvent] using h4,
      by simpa [stepEvent] using h5, by simpa [stepEvent] using h6⟩
  | stdinError c =>
    simpa [stepEvent, onStdinError_eq] using h
  | timeout oracle =>
    obtain ⟨h1, h2, h3, h4, h5, h6⟩ := h
    simp only [stepEvent, onTimeout]
    split
    · rename_i hpos
      have hse : s.stdinEnded = false := by
        cases hq : s.stdinEnded with
        | false => rfl
        | true =>
          rw [h1, (h6 hq).1] at hpos
          simp at hpos
      exact writeToFfplay_inv oracle s ⟨h1, h2, h3, h4, h5, h6⟩ hse
    · exact ⟨h1, h2, h3, h4, h5, h6⟩

/-- Every reachable session state satisfies the invariant. -/
lemma reachable_inv (b : Bool) (s : SessionState)
    (h : Reachable (initSession b) s) : SessionInv s := by
  induction h with
  | refl => exact inv_init b
  | next hr hv ih => exact inv_step _ _ hv ih

/-- No event changes the spawn status or `stdin.destroyed`. -/
lemma stepEvent_sink (s : SessionState) (e : AudioEvent) :
    (stepEvent s e).sinkOk = s.sinkOk ∧
    (stepEvent s e).stdinDestroyed = s.stdinDestroyed := by
  cases e with
  | data c oracle =>
    simp only [stepEvent, onData]
    split
    · obtain ⟨-, -, h3, h4, -⟩ :=
        writeToFfplay_const oracle (resumeCheck (enqueueChunk c s))
      rw [h3, h4]; simp
    · simp
  | srcEnd oracle =>
    simp only [stepEvent, onEnd]
    obtain ⟨-, -, h3, h4, -⟩ := writeToFfplay_const oracle
      { s with isStreamEnded := true, isPaused := false }
    rw [h3, h4]; exact ⟨rfl, rfl⟩
  | srcError e => simp [stepEvent, onSrcError]
  | drain oracle =>
    simp only [stepEvent, onDrain]
    obtain ⟨-, -, h3, h4, -⟩ := writeToFfplay_const oracle
      { s with isWriting := false, awaitingDrain := false }
    rw [h3, h4]; exact ⟨rfl, rfl⟩
  | procError e => simp [stepEvent, onProcError]
  | procClose code => simp [stepEvent]
  | stdinError c => simp [stepEvent, onStdinError_eq]
  | timeout oracle =>
    simp only [stepEvent, onTimeout]
    split
    · obtain ⟨-, -, h3, h4, -⟩ := writeToFfplay_const oracle s
      exact ⟨h3, h4⟩
    · exact ⟨rfl, rfl⟩

/-- Once the source has ended, it stays ended through any event. -/
lemma stepEvent_ended_mono (s : SessionState) (e : AudioEvent)
    (h : s.isStreamEnded = true) : (stepEvent s e).isStreamEnded = true := by
  cases e with
  | data c oracle =>
    simp only [stepEvent, onData]
    split
    · obtain ⟨h1, -⟩ := writeToFfplay_const oracle (resumeCheck (enqueueChunk c s))
      rw [h1]; simpa using h
    · simpa using h
  | srcEnd oracle =>
    simp only [stepEvent, onEnd]
    obtain ⟨h1, -⟩ := writeToFfplay_const oracle
      { s with isStreamEnded := true, isPaused := false }
    rw [h1]
  | srcError e => simpa [stepEvent, onSrcError] using h
  | drain oracle =>
    simp only [stepEvent, onDrain]
    obtain ⟨h1, -⟩ := writeToFfplay_const oracle
      { s with isWriting := false, awaitingDrain := false }
    rw [h1]; exact h
  | procError e => simpa [stepEvent, onProcError] using h
  | procClose code => simpa [stepEvent] using h
  | stdinError c => simpa [stepEvent, onStdinError_eq] using h
  | timeout oracle =>
    simp only [stepEvent, onTimeout]
    split
    · exact (writeToFfplay_const oracle s).1.trans h
    · exact h

/-- Reachability is transitive. -/
lemma reachable_trans {a b c : SessionState} (h1 : Reachable a b)
    (h2 : Reachable b c) : Reachable a c := by
  induction h2 with
  | refl => exact h1
  | next hr hv ih => exact Reachable.next ih hv

/-- The end-of-source flag is monotone along any valid run. -/
lemma reachable_ended_mono {a b : SessionState} (h : Reachable a b)
    (he : a.isStreamEnded = true) : b.isStreamEnded = true := by
  induction h with
  | refl => exact he
  | next hr hv ih => exact stepEvent_ended_mono _ _ ih

/-- Spawn status and `stdin.destroyed` are constant along a session. -/
lemma reachable_sink (b : Bool) (s : SessionState)
    (h : Reachable (initSession b) s) :
    s.sinkOk = b ∧ s.stdinDestroyed = false := by
  induction h with
  | refl => exact ⟨rfl, rfl⟩
  | next hr hv ih =>
    obtain ⟨h1, h2⟩ := stepEvent_sink _ _
    exact ⟨h1.trans ih.1, h2.trans ih.2⟩

/-! ## Concrete-trace lemmas -/

@[simp] lemma runTrace_nil (s : SessionState) : runTrace s [] = s := rfl

@[simp] lemma runTrace_cons (s : SessionState) (e : AudioEvent)
    (t : List AudioEvent) :
    runTrace s (e :: t) = runTrace (stepEvent s e) t := rfl

lemma runTrace_append (s : SessionState) (t1 t2 : List AudioEvent) :
    runTrace s (t1 ++ t2) = runTrace (runTrace s t1) t2 := by
  unfold runTrace
  exact List.foldl_append stepEvent s t1 t2

/-- With an always-accepting stdin and the source still open, the write
loop leaves no pending drain callback and never calls `stdin.end()`. -/
lemma drainLoop_accept (fuel : Nat) (s : SessionState)
    (ha : s.awaitingDrain = false) (he : s.isStreamEnded = false) :
    (drainLoop fuel [] s).isWriting = false ∧
    (drainLoop fuel [] s).awaitingDrain = false ∧
    (drainLoop fuel [] s).stdinEnded = s.stdinEnded ∧
    (drainLoop fuel [] s).endCount = s.endCount := by
  induction fuel generalizing s with
  | zero =>
    rw [drainLoop]
    unfold finishWrite
    rw [if_neg (by simp [he])]
    simp [ha]
  | succ n ih =>
    rw [drainLoop]
    cases hb : s.buffer with
    | nil =>
      dsimp only
      unfold finishWrite
      rw [if_neg (by simp [he])]
      simp [ha]
    | cons c rest =>
      dsimp only
      by_cases hp : s.isPaused = true
      · rw [if_pos hp]
        unfold finishWrite
        rw [if_neg (by simp [he])]
        simp [ha]
      · rw [if_neg hp, if_pos (by rfl : List.headD ([] : List Bool) true = true)]
        rw [show List.tail ([] : List Bool) = [] from rfl]
        simpa using ih (pauseCheck (shiftWrite c rest s)) (by simp [ha]) (by simp [he])

/-- Fields one `'data'` event never touches, and the ghost record of
arrivals. -/
lemma onData_const (c : AudioChunk) (oracle : List Bool) (s : SessionState) :
    (onData c oracle s).isStreamEnded = s.isStreamEnded ∧
    (onData c oracle s).arrived = s.arrived ++ [c] ∧
    (onData c oracle s).sinkOk = s.sinkOk ∧
    (onData c oracle s).stdinDestroyed = s.stdinDestroyed ∧
    (onData c oracle s).killCount = s.killCount ∧
    (onData c oracle s).procKilled = s.procKilled ∧
    (onData c oracle s).resolved = s.resolved ∧
    (onData c oracle s).outcome = s.outcome ∧
    (onData c oracle s).srcErrored = s.srcErrored ∧
    (onData c oracle s).procClosed = s.procClosed := by
  unfold onData
  dsimp only
  split
  · have h := writeToFfplay_const oracle (resumeCheck (enqueueChunk c s))
    obtain ⟨h1, h2, h3, h4, h5, h6, h7, h8, h9, h10⟩ := h
    rw [h1, h2, h3, h4, h5, h6, h7, h8, h9, h10]
    simp
  · simp

/-- One `'data'` event with an always-accepting stdin, before end-of-source,
leaves no write in progress, no pending drain, and does not touch
`stdin.end()`. -/
lemma onData_accept (c : AudioChunk) (s : SessionState)
    (hw : s.isWriting = false) (ha : s.awaitingDrain = false)
    (he : s.isStreamEnded = false) :
    (onData c [] s).isWriting = false ∧
    (onData c [] s).awaitingDrain = false ∧
    (onData c [] s).stdinEnded = s.stdinEnded ∧
    (onData c [] s).endCount = s.endCount := by
  unfold onData
  dsimp only
  split
  · unfold writeToFfplay
    split
    · simp [hw, ha]
    · have h := drainLoop_accept
        ((resumeCheck (enqueueChunk c s)).buffer.length)
        { resumeCheck (enqueueChunk c s) with isWriting := true }
        (by simp [ha]) (by simp [he])
      simpa using h
  · simp [hw, ha]

@[simp] lemma dataEvents_nil : dataEvents [] = [] := rfl

@[simp] lemma dataEvents_cons (c : AudioChunk) (cs : List AudioChunk) :
    dataEvents (c :: cs) = AudioEvent.data c [] :: dataEvents cs := rfl

/-- A run of `'data'` events: fields it never touches, plus the arrivals. -/
lemma runTrace_data (cs : List AudioChunk) (s : SessionState) :
    (runTrace s (dataEvents cs)).isStreamEnded = s.isStreamEnded ∧
    (runTrace s (dataEvents cs)).arrived = s.arrived ++ cs ∧
    (runTrace s (dataEvents cs)).sinkOk = s.sinkOk ∧
    (runTrace s (dataEvents cs)).stdinDestroyed = s.stdinDestroyed ∧
    (runTrace s (dataEvents cs)).killCount = s.killCount ∧
    (runTrace s (dataEvents cs)).procKilled = s.procKilled ∧
    (runTrace s (dataEvents cs)).resolved = s.resolved ∧
    (runTrace s (dataEvents cs)).outcome = s.outcome ∧
    (runTrace s (dataEvents cs)).srcErrored = s.srcErrored ∧
    (runTrace s (dataEvents cs)).procClosed = s.procClosed := by
  induction cs generalizing s with
  | nil => simp [dataEvents]
  | cons c cs ih =>
    rw [dataEvents_cons, runTrace_cons]
    have h1 := onData_const c [] s
    have h2 := ih (stepEvent s (AudioEvent.data c []))
    have hstep : stepEvent s (AudioEvent.data c []) = onData c [] s := rfl
    rw [hstep] at h2
    rw [hstep]
    refine ⟨h2.1.trans h1.1, ?_, h2.2.2.1.trans h1.2.2.1,
      h2.2.2.2.1.trans h1.2.2.2.1, h2.2.2.2.2.1.trans h1.2.2.2.2.1,
      h2.2.2.2.2.2.1.trans h1.2.2.2.2.2.1,
      h2.2.2.2.2.2.2.1.trans h1.2.2.2.2.2.2.1,
      h2.2.2.2.2.2.2.2.1.trans h1.2.2.2.2.2.2.2.1,
      h2.2.2.2.2.2.2.2.2.1.trans h1.2.2.2.2.2.2.2.2.1,
      h2.2.2.2.2.2.2.2.2.2.trans h1.2.2.2.2.2.2.2.2.2⟩
    rw [h2.2.1, h1.2.1]
    simp

/-- A run of `'data'` events with always-accepting stdin, before
end-of-source, keeps the write loop idle and never touches `stdin.end()`. -/
lemma runTrace_data_accept (cs : List AudioChunk) (s : SessionState)
    (hw : s.isWriting = false) (ha : s.awaitingDrain = false)
    (he : s.isStreamEnded = false) :
    (runTrace s (dataEvents cs)).isWriting = false ∧
    (runTrace s (dataEvents cs)).awaitingDrain = false ∧
    (runTrace s (dataEvents cs)).stdinEnded = s.stdinEnded ∧
    (runTrace s (dataEvents cs)).endCount = s.endCount := by
  induction cs generalizing s with
  | nil =>
    rw [dataEvents_nil, runTrace_nil]
    exact ⟨hw, ha, rfl, rfl⟩
  | cons c cs ih =>
    rw [dataEvents_cons, runTrace_cons]
    have hstep : stepEvent s (AudioEvent.data c []) = onData c [] s := rfl
    have h1 := onData_accept c s hw ha he
    have hended : (onData c [] s).isStreamEnded = s.isStreamEnded :=
      (onData_const c [] s).1
    have h2 := ih (stepEvent s (AudioEvent.data c []))
      (by rw [hstep]; exact h1.1) (by rw [hstep]; exact h1.2.1)
      (by rw [hstep, hended]; exact he)
    rw [hstep] at h2
    rw [hstep]
    exact ⟨h2.1, h2.2.1, h2.2.2.1.trans h1.2.2.1, h2.2.2.2.trans h1.2.2.2⟩

/-- Every run of `'data'` events from a live source is a valid run. -/
lemma reachable_data (cs : List AudioChunk) (s : SessionState)
    (he : s.isStreamEnded = false) (hsr : s.srcErrored = false) :
    Reachable s (runTrace s (dataEvents cs)) := by
  induction cs generalizing s with
  | nil => exact Reachable.refl
  | cons c cs ih =>
    have hv : validEvent s (AudioEvent.data c []) = true := by
      simp [validEvent, he, hsr]
    have hstep : stepEvent s (AudioEvent.data c []) = onData c [] s := rfl
    have hconst := onData_const c [] s
    rw [dataEvents_cons, runTrace_cons]
    refine reachable_trans (Reachable.next Reachable.refl hv) ?_
    exact ih (stepEvent s (AudioEvent.data c []))
      (by rw [hstep, hconst.1]; exact he)
      (by rw [hstep, hconst.2.2.2.2.2.2.2.2.1]; exact hsr)

/-- A resolved promise stays resolved with the same outcome. -/
lemma stepEvent_resolved (s : SessionState) (e : AudioEvent)
    (h : s.resolved = true) :
    (stepEvent s e).resolved = true ∧ (stepEvent s e).outcome = s.outcome := by
  cases e with
  | data c oracle =>
    have hc := onData_const c oracle s
    exact ⟨hc.2.2.2.2.2.2.1.trans h, hc.2.2.2.2.2.2.2.1⟩
  | srcEnd oracle =>
    have hc := writeToFfplay_const oracle
      { s with isStreamEnded := true, isPaused := false }
    exact ⟨hc.2.2.2.2.2.2.1.trans h, hc.2.2.2.2.2.2.2.1⟩
  | srcError e =>
    simp only [stepEvent, onSrcError]
    unfold rejectWith
    rw [if_neg (by simp [h])]
    simpa using h
  | drain oracle =>
    have hc := writeToFfplay_const oracle
      { s with isWriting := false, awaitingDrain := false }
    exact ⟨hc.2.2.2.2.2.2.1.trans h, hc.2.2.2.2.2.2.2.1⟩
  | procError e =>
    simp only [stepEvent, onProcError]
    unfold rejectWith
    rw [if_neg (by simp [h])]
    exact ⟨h, rfl⟩
  | procClose code =>
    simp only [stepEvent, onProcClose]
    rw [if_neg (by simp [h])]
    exact ⟨h, rfl⟩
  | stdinError c =>
    rw [show stepEvent s (AudioEvent.stdinError c) = onStdinError c s from rfl,
      onStdinError_eq]
    exact ⟨h, rfl⟩
  | timeout oracle =>
    simp only [stepEvent, onTimeout]
    split
    · have hc := writeToFfplay_const oracle s
      exact ⟨hc.2.2.2.2.2.2.1.trans h, hc.2.2.2.2.2.2.2.1⟩
    · exact ⟨h, rfl⟩

/-- A resolved promise stays resolved with the same outcome along any run. -/
lemma runTrace_resolved (t : List AudioEvent) (s : SessionState)
    (h : s.resolved = true) :
    (runTrace s t).resolved = true ∧ (runTrace s t).outcome = s.outcome := by
  induction t generalizing s with
  | nil => exact ⟨h, rfl⟩
  | cons e t ih =>
    rw [runTrace_cons]
    have h1 := stepEvent_resolved s e h
    have h2 := ih (stepEvent s e) h1.1
    exact ⟨h2.1, h2.2.trans h1.2⟩

/-- With no usable stdin (failed spawn), `writeToFfplay` is a no-op. -/
lemma writeToFfplay_noSink (oracle : List Bool) (s : SessionState)
    (h : s.sinkOk = false) : writeToFfplay oracle s = s := by
  unfold writeToFfplay
  rw [if_pos (Or.inr (Or.inl h))]

/-- With no usable stdin, no event ever writes a byte to the sink. -/
lemma stepEvent_noSink (s : SessionState) (e : AudioEvent)
    (h : s.sinkOk = false) :
    (stepEvent s e).written = s.written ∧ (stepEvent s e).sinkOk = false := by
  cases e with
  | data c oracle =>
    simp only [stepEvent, onData]
    split
    · rw [writeToFfplay_noSink oracle _ (by simp [h])]
      simp [h]
    · simp [h]
  | srcEnd oracle =>
    simp only [stepEvent, onEnd]
    rw [writeToFfplay_noSink oracle _ (by simp [h])]
    exact ⟨rfl, h⟩
  | srcError e => simp [stepEvent, onSrcError, h]
  | drain oracle =>
    simp only [stepEvent, onDrain]
    rw [writeToFfplay_noSink oracle _ (by simp [h])]
    exact ⟨rfl, h⟩
  | procError e => simp [stepEvent, onProcError, h]
  | procClose code => simp [stepEvent, h]
  | stdinError c => simp [stepEvent, onStdinError_eq, h]
  | timeout oracle =>
    simp only [stepEvent, onTimeout]
    split
    · rw [writeToFfplay_noSink oracle s h]
      exact ⟨rfl, h⟩
    · exact ⟨rfl, h⟩

/-- With no usable stdin, a whole run writes nothing to the sink. -/
lemma runTrace_noSink (t : List AudioEvent) (s : SessionState)
    (h : s.sinkOk = false) :
    (runTrace s t).written = s.written ∧ (runTrace s t).sinkOk = false := by
  induction t generalizing s with
  | nil => exact ⟨rfl, h⟩
  | cons e t ih =>
    rw [runTrace_cons]
    have h1 := stepEvent_noSink s e h
    have h2 := ih (stepEvent s e) h1.2
    exact ⟨h2.1.trans h1.1, h2.2⟩

/-- An idle, unpaused `writeToFfplay` call after end-of-source flushes the
whole queue and closes stdin once. -/
lemma writeToFfplay_flush (s : SessionState) (hw : s.isWriting = false)
    (hp : s.isPaused = false) (he : s.isStreamEnded = true)
    (hs : s.sinkOk = true) (hd : s.stdinDestroyed = false) :
    (writeToFfplay [] s).buffer = [] ∧
    (writeToFfplay [] s).stdinEnded = true ∧
    (writeToFfplay [] s).endCount = s.endCount + 1 ∧
    (writeToFfplay [] s).written = s.written ++ s.buffer.flatten ∧
    (writeToFfplay [] s).resolved = s.resolved ∧
    (writeToFfplay [] s).outcome = s.outcome ∧
    (writeToFfplay [] s).killCount = s.killCount := by
  unfold writeToFfplay
  rw [if_neg (by simp [hw, hs, hd])]
  have hfl := drainLoop_flush s.buffer.length { s with isWriting := true }
    (by simp) (by simpa using hp) (by simpa using he) (by simpa using hs)
    (by simpa using hd)
  have hfi := drainLoop_fields s.buffer.length [] { s with isWriting := true }
  refine ⟨hfl.1, hfl.2.1, by simpa using hfl.2.2.1, by simpa using hfl.2.2.2.1,
    by simpa using hfi.2.2.2.2.2.2.1, by simpa using hfi.2.2.2.2.2.2.2.1,
    by simpa using hfi.2.2.2.2.1⟩

/-- The `'end'` handler on an idle session with sink available: full flush,
one `stdin.end()`, promise untouched. -/
lemma onEnd_flush (s : SessionState) (hw : s.isWriting = false)
    (hs : s.sinkOk = true) (hd : s.stdinDestroyed = false) :
    (onEnd [] s).buffer = [] ∧
    (onEnd [] s).stdinEnded = true ∧
    (onEnd [] s).endCount = s.endCount + 1 ∧
    (onEnd [] s).written = s.written ++ s.buffer.flatten ∧
    (onEnd [] s).resolved = s.resolved ∧
    (onEnd [] s).outcome = s.outcome ∧
    (onEnd [] s).killCount = s.killCount := by
  unfold onEnd
  have h := writeToFfplay_flush { s with isStreamEnded := true, isPaused := false }
    (by simpa using hw) (by simp) (by simp) (by simpa using hs)
    (by simpa using hd)
  simpa using h

/-- The `'close'` handler on a pending promise resolves by exit code:
`0` or the signal sentinel `null` succeed, anything else rejects with
`PlaybackError(code)`. -/
lemma onProcClose_outcome_pending (code : Option Int) (s : SessionState)
    (h : s.resolved = false) :
    (onProcClose code s).outcome =
      some (if code = some 0 ∨ code = none then Except.ok ()
            else Except.error (SessionError.playbackError code)) := by
  unfold onProcClose
  dsimp only
  rw [if_pos (by simpa using h)]
  split <;> simp_all

/-- One clean completed streaming session (all chunks, then `'end'`, then
the process `'close'`): every arrived byte is written in order, stdin is
ended exactly once, the player is never killed, and the outcome follows the
exit code. -/
lemma completed_session (cs : List AudioChunk) (code : Option Int) :
    (runTrace (initSession true) (sessionTrace ⟨cs, none⟩ code)).written
      = cs.flatten ∧
    (runTrace (initSession true) (sessionTrace ⟨cs, none⟩ code)).endCount = 1 ∧
    (runTrace (initSession true) (sessionTrace ⟨cs, none⟩ code)).stdinEnded
      = true ∧
    (runTrace (initSession true) (sessionTrace ⟨cs, none⟩ code)).killCount
      = 0 ∧
    (runTrace (initSession true) (sessionTrace ⟨cs, none⟩ code)).outcome =
      some (if code = some 0 ∨ code = none then Except.ok ()
            else Except.error (SessionError.playbackError code)) := by
  have htr : sessionTrace ⟨cs, none⟩ code =
      dataEvents cs ++ [AudioEvent.srcEnd [], AudioEvent.procClose code] := rfl
  rw [htr, runTrace_append, runTrace_cons, runTrace_cons, runTrace_nil]
  have hconst := runTrace_data cs (initSession true)
  have haccept := runTrace_data_accept cs (initSession true) rfl rfl rfl
  have hreach := reachable_data cs (initSession true) rfl rfl
  obtain ⟨i1, i2, i3, i4, i5, i6⟩ := reachable_inv true _ hreach
  have hflush := onEnd_flush (runTrace (initSession true) (dataEvents cs))
    haccept.1 (hconst.2.2.1.trans rfl) (hconst.2.2.2.1.trans rfl)
  have hse : stepEvent (runTrace (initSession true) (dataEvents cs))
      (AudioEvent.srcEnd []) =
      onEnd [] (runTrace (initSession true) (dataEvents cs)) := rfl
  rw [hse]
  have hpc : stepEvent (onEnd [] (runTrace (initSession true) (dataEvents cs)))
      (AudioEvent.procClose code) =
      onProcClose code (onEnd [] (runTrace (initSession true) (dataEvents cs)))
      := rfl
  rw [hpc]
  have hres : (onEnd [] (runTrace (initSession true) (dataEvents cs))).resolved
      = false :=
    hflush.2.2.2.2.1.trans (hconst.2.2.2.2.2.2.1.trans rfl)
  refine ⟨?_, ?_, ?_, ?_, ?_⟩
  · rw [onProcClose_written, hflush.2.2.2.1, i2, hconst.2.1]
    simp [initSession]
  · rw [onProcClose_endCount, hflush.2.2.1, haccept.2.2.2]
    rfl
  · rw [onProcClose_stdinEnded, hflush.2.1]
  · rw [onProcClose_killCount, hflush.2.2.2.2.2.2, hconst.2.2.2.2.1]
    rfl
  · rw [onProcClose_outcome_pending code _ hres]

/-- A session whose source errors after the chunks: the player is killed
exactly once and the promise rejects with the original source error. -/
lemma errored_session (cs : List AudioChunk) (e : Nat) (code : Option Int) :
    (runTrace (initSession true) (sessionTrace ⟨cs, some e⟩ code)).killCount
      = 1 ∧
    (runTrace (initSession true) (sessionTrace ⟨cs, some e⟩ code)).outcome =
      some (Except.error (SessionError.sourceError e)) := by
  have htr : sessionTrace ⟨cs, some e⟩ code =
      dataEvents cs ++ [AudioEvent.srcError e, AudioEvent.procClose none] := rfl
  rw [htr, runTrace_append, runTrace_cons, runTrace_cons, runTrace_nil]
  have hconst := runTrace_data cs (initSession true)
  have hse : stepEvent (runTrace (initSession true) (dataEvents cs))
      (AudioEvent.srcError e) =
      onSrcError e (runTrace (initSession true) (dataEvents cs)) := rfl
  rw [hse]
  have hpk : (runTrace (initSession true) (dataEvents cs)).procKilled = false := by
    rw [hconst.2.2.2.2.2.1]
    rfl
  have hkc : (runTrace (initSession true) (dataEvents cs)).killCount = 0 := by
    rw [hconst.2.2.2.2.1]
    rfl
  have hrv : (runTrace (initSession true) (dataEvents cs)).resolved = false := by
    rw [hconst.2.2.2.2.2.2.1]
    rfl
  have hk : (onSrcError e (runTrace (initSession true) (dataEvents cs))).killCount
      = 1 := by
    unfold onSrcError
    rw [rejectWith_killCount, cleanup_killCount, if_pos (by simp [hpk])]
    simp [hkc]
  have hout : (onSrcError e (runTrace (initSession true) (dataEvents cs))).outcome
      = some (Except.error (SessionError.sourceError e)) := by
    unfold onSrcError
    rw [rejectWith_outcome, if_pos (by simp [hrv])]
  have hres : (onSrcError e (runTrace (initSession true) (dataEvents cs))).resolved
      = true := by
    unfold onSrcError
    exact rejectWith_resolved _ _
  have h2 := stepEvent_resolved
    (onSrcError e (runTrace (initSession true) (dataEvents cs)))
    (AudioEvent.procClose none) hres
  constructor
  · rw [show stepEvent
      (onSrcError e (runTrace (initSession true) (dataEvents cs)))
      (AudioEvent.procClose none) =
      onProcClose none (onSrcError e (runTrace (initSession true) (dataEvents cs)))
      from rfl, onProcClose_killCount]
    exact hk
  · rw [h2.2]
    exact hout

/-- A session whose spawn failed (process `'error'` first): the promise
rejects with the spawn error and nothing is ever written to the sink. -/
lemma spawnfail_session (tr : List AudioEvent) :
    (runTrace (initSession false) (AudioEvent.procError 0 :: tr)).outcome =
      some (Except.error (SessionError.spawnError 0)) ∧
    (runTrace (initSession false) (AudioEvent.procError 0 :: tr)).written
      = [] := by
  rw [runTrace_cons]
  have hstep : stepEvent (initSession false) (AudioEvent.procError 0) =
      rejectWith (SessionError.spawnError 0) (initSession false) := rfl
  rw [hstep]
  have hres : (rejectWith (SessionError.spawnError 0) (initSession false)).resolved
      = true := rejectWith_resolved _ _
  have hout : (rejectWith (SessionError.spawnError 0) (initSession false)).outcome
      = some (Except.error (SessionError.spawnError 0)) := by
    rw [rejectWith_outcome,
      if_pos (show (initSession false).resolved = false from rfl)]
  have hsink : (rejectWith (SessionError.spawnError 0) (initSession false)).sinkOk
      = false := (rejectWith_sinkOk _ _).trans rfl
  have h1 := runTrace_resolved tr _ hres
  have h2 := runTrace_noSink tr _ hsink
  exact ⟨h1.2.trans hout, h2.1.trans ((rejectWith_written _ _).trans rfl)⟩

/-- On a paused state the write loop exits immediately. -/
lemma drainLoop_paused (fuel : Nat) (oracle : List Bool) (s : SessionState)
    (h : s.isPaused = true) : drainLoop fuel oracle s = finishWrite s := by
  cases fuel with
  | zero => rfl
  | succ n =>
    rw [drainLoop]
    cases hb : s.buffer with
    | nil => rfl
    | cons c rest =>
      dsimp only
      rw [if_pos h]

/-! ## Claims -/

/-- C1: For every sequence of chunks delivered by the source stream during
one playback session, the bytes written to the sink process's stdin and the
bytes in the Buffer returned by `generateAudio` are each exactly the
concatenation of those chunks in arrival order, with no chunk skipped,
duplicated, or reordered.  In every reachable state, `written ++ queued`
equals the arrived bytes (so writes are an in-order prefix); once the
source has ended and the queue is drained, `written` is exactly the
concatenation; a completed `generateAudio` call writes exactly the
concatenation to the sink and returns it. -/
theorem C1_order_preservation (b : Bool) (s : SessionState)
    (h : Reachable (initSession b) s) :
    s.written ++ s.buffer.flatten = s.arrived.flatten ∧
    (s.isStreamEnded = true → s.buffer = [] →
      s.written = s.arrived.flatten) ∧
    (∀ (src : SourceOutcome) (code : Option Int), src.error = none →
      (generateAudio ⟨some true⟩ true src code).sinkWrites
        = src.chunks.flatten ∧
      ((code = some 0 ∨ code = none) →
        (generateAudio ⟨some true⟩ true src code).result =
          Except.ok src.chunks.flatten)) := by
  have hinv := reachable_inv b s h
  refine ⟨hinv.2.1, ?_, ?_⟩
  · intro he hb
    have h2 := hinv.2.1
    rw [hb] at h2
    simpa using h2
  · intro src code herr
    obtain ⟨cs, err⟩ := src
    simp only at herr
    subst herr
    have hc := completed_session cs code
    constructor
    · simp only [generateAudio]
      rw [if_pos (by rfl)]
      simpa using hc.1
    · intro hcode
      have hout : (runTrace (initSession true)
          (sessionTrace ⟨cs, none⟩ code)).outcome = some (Except.ok ()) := by
        rw [hc.2.2.2.2, if_pos hcode]
      simp only [generateAudio]
      rw [if_pos (by rfl)]
      simp only [if_true, List.nil_append]
      rw [hout]

/-- C1 witness: a concrete three-chunk completed session writes exactly the
concatenation of the chunks to the sink. -/
theorem C1_order_preservation_witness :
    (generateAudio ⟨some true⟩ true ⟨[[1, 2], [3]], none⟩ (some 0)).sinkWrites
      = [1, 2, 3] := by
  have h := (C1_order_preservation true (initSession true)
    Reachable.refl).2.2 ⟨[[1, 2], [3]], none⟩ (some 0) rfl
  simpa using h.1

/-- C2: Watermark hysteresis.  From the Paused state, the `'data'` handler's
resume check transitions to Flowing exactly when the buffered total reaches
the high watermark `bufferSize` (512KB = 524288 bytes); while Paused, a
stdin `'drain'` event never resumes flow (and writes nothing), and a chunk
arrival that leaves the total strictly below the high watermark keeps the
state Paused with nothing written. -/
theorem C2_watermark_hysteresis (s : SessionState) (c : AudioChunk)
    (oracle : List Bool) (hp : s.isPaused = true) :
    bufferSize = 524288 ∧ minBufferSize = 131072 ∧
    ((resumeCheck (enqueueChunk c s)).isPaused = false ↔
      bufferSize ≤ s.totalBuffered + c.length) ∧
    ((stepEvent s (AudioEvent.drain oracle)).isPaused = true ∧
      (stepEvent s (AudioEvent.drain oracle)).written = s.written) ∧
    (s.totalBuffered + c.length < bufferSize →
      (stepEvent s (AudioEvent.data c oracle)).isPaused = true ∧
      (stepEvent s (AudioEvent.data c oracle)).written = s.written) := by
  refine ⟨rfl, rfl, ?_, ?_, ?_⟩
  · rw [resumeCheck_isPaused]
    simp only [enqueueChunk_isPaused, enqueueChunk_totalBuffered, hp,
      true_and]
    split <;> simp_all
  · simp only [stepEvent, onDrain]
    unfold writeToFfplay
    split
    · simp [hp]
    · rw [drainLoop_paused _ oracle _ (by simpa using hp)]
      simp [hp]
  · intro hlt
    have hs1 : (resumeCheck (enqueueChunk c s)).isPaused = true := by
      rw [resumeCheck_isPaused]
      rw [if_neg (by simp [hp, Nat.not_le.mpr hlt])]
      simp [hp]
    simp only [stepEvent, onData]
    rw [if_neg (by simp [hs1])]
    exact ⟨hs1, by simp⟩

/-- C2 witness: in a concrete Paused state (reached after one small chunk
is written and the buffer runs low), neither a `'drain'` event nor a small
chunk arrival resumes flow. -/
theorem C2_watermark_hysteresis_witness :
    (stepEvent (runTrace (initSession true) [AudioEvent.data [0] []])
      (AudioEvent.drain [])).isPaused = true ∧
    (stepEvent (runTrace (initSession true) [AudioEvent.data [0] []])
      (AudioEvent.data [1] [])).isPaused = true :=
  ⟨((C2_watermark_hysteresis (runTrace (initSession true)
      [AudioEvent.data [0] []]) [1] [] (by decide)).2.2.2.1).1,
   ((C2_watermark_hysteresis (runTrace (initSession true)
      [AudioEvent.data [0] []]) [1] [] (by decide)).2.2.2.2 (by decide)).1⟩

/-- C3 counterexample: the claim says that with fewer than `minQueueSlack`
chunks remaining, crossing below the low watermark must NOT pause flow.
In the code it is the other way round: after the very first (small) chunk
is written, zero chunks remain (fewer than 10), the total (0) is below the
low watermark, the source has not ended — and the state IS Paused. -/
theorem C3_no_tail_pause_counterexample :
    (runTrace (initSession true) [AudioEvent.data [0] []]).isPaused = true ∧
    (runTrace (initSession true) [AudioEvent.data [0] []]).buffer.length <
      queueSlack ∧
    (runTrace (initSession true) [AudioEvent.data [0] []]).totalBuffered <
      minBufferSize ∧
    (runTrace (initSession true)
      [AudioEvent.data [0] []]).isStreamEnded = false := by
  decide

/-- C3 amended: a low-watermark crossing pauses flow exactly when fewer
than `minQueueSlack` (10) chunks remain queued (and the total is below the
low watermark and the source has not ended); in particular, with at least
`minQueueSlack` chunks queued the crossing does NOT pause flow. -/
theorem C3_no_tail_pause_amended (s : SessionState)
    (hf : s.isPaused = false) :
    ((pauseCheck s).isPaused = true ↔
      (s.totalBuffered < minBufferSize ∧ s.isStreamEnded = false ∧
        s.buffer.length < queueSlack)) ∧
    (queueSlack ≤ s.buffer.length → (pauseCheck s).isPaused = false) := by
  constructor
  · unfold pauseCheck
    split
    · simp_all
    · simp_all
  · intro hq
    unfold pauseCheck
    rw [if_neg (by simp [Nat.not_lt.mpr hq])]
    exact hf

/-- C3 amended witness: at a concrete flowing state with an empty queue and
zero buffered bytes (source still open), the pause check does pause. -/
theorem C3_no_tail_pause_amended_witness :
    (pauseCheck (initSession true)).isPaused = true :=
  (C3_no_tail_pause_amended (initSession true) rfl).1.mpr (by decide)

/-- C4: After the source-end signal, FlowState is forced to Flowing and
never re-enters Paused for the remainder of the session; `stdin.end()` is
called at most once, only once the queue is empty — and on a completed
session it is called exactly once. -/
theorem C4_flush_on_end (b : Bool) (s : SessionState)
    (h : Reachable (initSession b) s) (he : s.isStreamEnded = true) :
    s.isPaused = false ∧
    (∀ t : SessionState, Reachable s t → t.isPaused = false) ∧
    s.endCount ≤ 1 ∧
    (s.stdinEnded = true → s.buffer = []) ∧
    (∀ (cs : List AudioChunk) (code : Option Int),
      (runTrace (initSession true) (sessionTrace ⟨cs, none⟩ code)).endCount
        = 1) := by
  have hinv := reachable_inv b s h
  refine ⟨?_, ?_, ?_, ?_, ?_⟩
  · cases hq : s.isPaused with
    | false => rfl
    | true => rw [hinv.2.2.1 hq] at he; cases he
  · intro t ht
    have hinvT := reachable_inv b t (reachable_trans h ht)
    have hT := reachable_ended_mono ht he
    cases hq : t.isPaused with
    | false => rfl
    | true => rw [hinvT.2.2.1 hq] at hT; cases hT
  · rw [hinv.2.2.2.2.1]
    split <;> simp
  · intro hq
    exact (hinv.2.2.2.2.2 hq).1
  · intro cs code
    exact (completed_session cs code).2.1

/-- C4 witness: from the state right after the `'end'` event, and on a
concrete completed session, `stdin.end()` is called exactly once. -/
theorem C4_flush_on_end_witness :
    (runTrace (initSession true)
      (sessionTrace ⟨[[1, 2]], none⟩ (some 0))).endCount = 1 :=
  (C4_flush_on_end true (stepEvent (initSession true) (AudioEvent.srcEnd []))
    (Reachable.next Reachable.refl (by decide))
    (by decide)).2.2.2.2 [[1, 2]] (some 0)

/-- C5: At every event boundary of a session, `totalBuffered` equals the
sum of the lengths of the queued chunks; it is incremented by the chunk's
length at enqueue, and decremented by the chunk's length exactly in the
write-loop step that hands the chunk to the sink's stdin. -/
theorem C5_buffer_counter (b : Bool) (s : SessionState)
    (h : Reachable (initSession b) s) :
    s.totalBuffered = (s.buffer.map List.length).sum ∧
    (∀ c : AudioChunk,
      (enqueueChunk c s).totalBuffered = s.totalBuffered + c.length ∧
      (enqueueChunk c s).written = s.written) ∧
    (∀ (c : AudioChunk) (rest : List AudioChunk),
      (shiftWrite c rest s).totalBuffered = s.totalBuffered - c.length ∧
      (shiftWrite c rest s).written = s.written ++ c) :=
  ⟨(reachable_inv b s h).1, fun _ => ⟨rfl, rfl⟩, fun _ _ => ⟨rfl, rfl⟩⟩

/-- C5 witness: after a chunk stuck on backpressure and one more arrival,
the counter equals the number of queued bytes in a concrete state. -/
theorem C5_buffer_counter_witness :
    (runTrace (initSession true) [AudioEvent.data [1, 2] [false],
      AudioEvent.data [3] []]).totalBuffered =
      ((runTrace (initSession true) [AudioEvent.data [1, 2] [false],
        AudioEvent.data [3] []]).buffer.map List.length).sum := by
  have h0 : Reachable (initSession true)
      (stepEvent (stepEvent (initSession true)
        (AudioEvent.data [1, 2] [false])) (AudioEvent.data [3] [])) :=
    Reachable.next (Reachable.next Reachable.refl (by decide)) (by decide)
  exact (C5_buffer_counter true _ h0).1

/-- C6: If the source byte stream errors mid-transfer, `generateAudio`
rejects with that original error (`pipeline` rethrows it), the sink
subprocess is killed exactly once by `cleanup()`, and no partial
accumulated buffer is returned to the caller. -/
theorem C6_source_error (opts : GenerateAudioOptions) (src : SourceOutcome)
    (e : Nat) (code : Option Int)
    (hplay : opts.playAudio.getD true = true) (herr : src.error = some e) :
    (generateAudio opts true src code).result =
      Except.error (SessionError.sourceError e) ∧
    (generateAudio opts true src code).killCount = 1 ∧
    (∀ bytes : List Nat,
      (generateAudio opts true src code).result ≠ Except.ok bytes) := by
  obtain ⟨cs, err⟩ := src
  simp only at herr
  subst herr
  have hk := errored_session cs e code
  refine ⟨?_, ?_, ?_⟩
  · simp only [generateAudio]
    rw [if_pos hplay]
  · simp only [generateAudio]
    rw [if_pos hplay]
    simpa using hk.1
  · intro bytes
    simp only [generateAudio]
    rw [if_pos hplay]
    simp

/-- C6 witness: a concrete source that errors after three chunks. -/
theorem C6_source_error_witness :
    (generateAudio ⟨none⟩ true ⟨[[1], [2], [3]], some 7⟩ (some 0)).result =
      Except.error (SessionError.sourceError 7) ∧
    (generateAudio ⟨none⟩ true ⟨[[1], [2], [3]], some 7⟩ (some 0)).killCount
      = 1 :=
  ⟨(C6_source_error ⟨none⟩ ⟨[[1], [2], [3]], some 7⟩ 7 (some 0) rfl rfl).1,
   (C6_source_error ⟨none⟩ ⟨[[1], [2], [3]], some 7⟩ 7 (some 0) rfl
      rfl).2.1⟩

/-- C7: When the playback executable is absent, a `generateAudio` call with
`playAudio = true` rejects with the spawn error before any chunk is written
to the sink, while the same input with `playAudio = false` succeeds,
returns the accumulated bytes, and never instantiates the sink. -/
theorem C7_spawn_failure (src : SourceOutcome) (code : Option Int)
    (herr : src.error = none) :
    (generateAudio ⟨some true⟩ false src code).result =
      Except.error (SessionError.spawnError 0) ∧
    (generateAudio ⟨some true⟩ false src code).sinkWrites = [] ∧
    (generateAudio ⟨some false⟩ false src code).result =
      Except.ok src.chunks.flatten ∧
    (generateAudio ⟨some false⟩ false src code).sinkSpawned = false := by
  obtain ⟨cs, err⟩ := src
  simp only at herr
  subst herr
  have hs := spawnfail_session (sessionTrace ⟨cs, none⟩ code)
  refine ⟨?_, ?_, ?_, ?_⟩
  · simp only [generateAudio]
    rw [if_pos (by rfl)]
    simp only [Bool.false_eq_true, if_false, List.singleton_append]
    rw [hs.1]
  · simp only [generateAudio]
    rw [if_pos (by rfl)]
    simpa using hs.2
  · simp [generateAudio]
  · simp [generateAudio]

/-- C7 witness: a concrete two-chunk clean source with the player missing. -/
theorem C7_spawn_failure_witness :
    (generateAudio ⟨some true⟩ false ⟨[[1], [2]], none⟩ (some 0)).sinkWrites
      = [] ∧
    (generateAudio ⟨some false⟩ false ⟨[[1], [2]], none⟩ (some 0)).result =
      Except.ok [1, 2] := by
  have h := C7_spawn_failure ⟨[[1], [2]], none⟩ (some 0) rfl
  exact ⟨h.2.1, by simpa using h.2.2.1⟩

/-- C8 counterexample: at exit code `null` (process terminated by a signal,
the teardown sentinel), the streaming path resolves success but the
buffer-then-play `playAudio` path rejects — the claim that both paths treat
the sentinel as success is false. -/
theorem C8_exit_code_counterexample :
    playAudioClose none =
      Except.error (SessionError.playbackError none) ∧
    (onProcClose none (initSession true)).outcome =
      some (Except.ok ()) := by
  constructor
  · rfl
  · rfl

/-- C8 amended: on the streaming path, a pending session resolves success
exactly on exit code `0` or the signal sentinel `null`, and rejects with
`PlaybackError(code)` on any other code; the buffer-then-play `playAudio`
path treats only exit code `0` as success (the sentinel `null` rejects
there). -/
theorem C8_exit_code_amended (code : Option Int) (s : SessionState)
    (h : s.resolved = false) :
    ((onProcClose code s).outcome = some (Except.ok ()) ↔
      (code = some 0 ∨ code = none)) ∧
    (¬(code = some 0 ∨ code = none) →
      (onProcClose code s).outcome =
        some (Except.error (SessionError.playbackError code))) ∧
    (playAudioClose code = Except.ok () ↔ code = some 0) := by
  have hp := onProcClose_outcome_pending code s h
  refine ⟨?_, ?_, ?_⟩
  · rw [hp]
    split
    · simp_all
    · simp_all
  · intro hg
    rw [hp, if_neg hg]
  · unfold playAudioClose
    split <;> simp_all

/-- C8 amended witness: a concrete nonzero exit code rejects the pending
streaming session, and the sentinel `null` fails `playAudio` but not the
streaming path. -/
theorem C8_exit_code_amended_witness :
    (onProcClose (some 3) (initSession true)).outcome =
      some (Except.error (SessionError.playbackError (some 3))) ∧
    ((onProcClose none (initSession true)).outcome = some (Except.ok ()) ∧
      ¬playAudioClose none = Except.ok ()) :=
  ⟨(C8_exit_code_amended (some 3) (initSession true) rfl).2.1 (by decide),
   ⟨(C8_exit_code_amended none (initSession true) rfl).1.mpr (by decide),
    fun hc => by
      have := (C8_exit_code_amended none (initSession true) rfl).2.2.mp hc
      cases this⟩⟩

/-- C9: An error on the sink's input pipe never by itself fails the
session: `EPIPE` is swallowed silently and any other stdin error is only
logged — the handler leaves the whole session state (in particular the
promise) untouched, so only the process `'close'` event determines the
outcome. -/
theorem C9_stdin_error_harmless (s : SessionState) (c : StdinErrCode) :
    stepEvent s (AudioEvent.stdinError c) = s ∧
    (stepEvent s (AudioEvent.stdinError c)).outcome = s.outcome ∧
    (stepEvent s (AudioEvent.stdinError c)).resolved = s.resolved := by
  have h : stepEvent s (AudioEvent.stdinError c) = s := onStdinError_eq c s
  exact ⟨h, by rw [h], by rw [h]⟩

/-- C10: An omitted `playAudio` option defaults to `true`: `generateAudio`
behaves identically with the option omitted and with `playAudio = true` —
the sink subprocess is spawned, so the call fails with the spawn error when
the playback executable is unavailable. -/
theorem C10_playAudio_default (sinkAvailable : Bool) (src : SourceOutcome)
    (code : Option Int) :
    generateAudio ⟨none⟩ sinkAvailable src code =
      generateAudio ⟨some true⟩ sinkAvailable src code ∧
    (generateAudio ⟨none⟩ sinkAvailable src code).sinkSpawned = true ∧
    (generateAudio ⟨none⟩ false ⟨[[1]], none⟩ (some 0)).result =
      Except.error (SessionError.spawnError 0) := by
  refine ⟨rfl, ?_, ?_⟩
  · simp only [generateAudio]
    rw [if_pos (by rfl)]
  · have hs := spawnfail_session (sessionTrace ⟨[[1]], none⟩ (some 0))
    simp only [generateAudio]
    rw [if_pos (by rfl)]
    simp only [Bool.false_eq_true, if_false, List.singleton_append]
    rw [hs.1]
